import Mathlib

/- Batteries marks the `Rat` arithmetic operations `@[irreducible]`; concrete
evaluation of the engine by `decide`/`rfl` needs them to unfold, so restore
the default reducibility for this file. -/
attribute [local semireducible] Rat.mul Rat.add Rat.sub Rat.inv Rat.ofScientific

/-!
Verification of the diagnostic rule engine of the Expert-System repository
(`support_app/expert_engine.py` and `support_app/rule_import.py`).

Python values that occur as facts, condition comparands and rule fields are
modelled by `PyVal` (booleans, numbers, strings and `None`; per the data model
the engine only ever sees these).  Python `float` arithmetic is modelled by
exact rationals (`Rat`).  Python dictionaries are modelled by association
lists, fallible operations by `Option`/`Except`.
-/

/-- A Python value as used by the engine: boolean, number, string or `None`.
Python `int` and `float` are collapsed into one numeric constructor `num`
(Python compares them numerically; `bool` stays separate because the engine's
`isinstance` checks and identity tests distinguish it, but note that Python's
`isinstance(x, int)` is true for booleans, which is modelled where relevant). -/
inductive PyVal where
  | bool (b : Bool)
  | num (q : Rat)
  | str (s : String)
  | none
deriving DecidableEq

/-- Characters considered whitespace when Python's `int()`/`float()` strip a
string argument (modelled as the space character only). -/
def trimSpaces (cs : List Char) : List Char :=
  ((cs.dropWhile (fun c => c = ' ')).reverse.dropWhile (fun c => c = ' ')).reverse

/-- Leading sign of a numeric literal: returns (isNegative, rest). -/
def parseSign : List Char → Bool × List Char
  | '-' :: cs => (true, cs)
  | '+' :: cs => (false, cs)
  | cs => (false, cs)

/-- Value of a digit string (caller has checked all characters are digits). -/
def digitsNat (cs : List Char) : Nat :=
  cs.foldl (fun n c => 10 * n + (c.toNat - 48)) 0

/-- A non-empty all-digit string, or failure. -/
def parseDigits (cs : List Char) : Option Nat :=
  if cs ≠ [] ∧ cs.all Char.isDigit then some (digitsNat cs) else Option.none

/-- Python `int(s)` on a string: optional surrounding spaces, optional sign,
then decimal digits.  (Underscore separators and non-decimal bases are not
modelled; the engine's inputs never use them.) -/
def pyIntOfString (s : String) : Option Int :=
  let (neg, cs) := parseSign (trimSpaces s.toList)
  (parseDigits cs).map (fun n => if neg then -(n : Int) else (n : Int))

/-- Python `float(s)` on a string: optional spaces and sign, then digits with
an optional single decimal point (`"1."`, `".5"`, `"3"` all accepted, `"."`
and anything else rejected).  Exponents, `inf` and `nan` are not modelled;
the engine's inputs never use them. -/
def pyFloatOfString (s : String) : Option Rat :=
  let (neg, cs) := parseSign (trimSpaces s.toList)
  let body : Option Rat :=
    match cs.span (fun c => c ≠ '.') with
    | (intPart, []) => (parseDigits intPart).map (fun n => (n : Rat))
    | (intPart, _dot :: fracPart) =>
      if intPart = [] ∧ fracPart = [] then Option.none
      else if intPart.all Char.isDigit ∧ fracPart.all Char.isDigit then
        some (mkRat ((digitsNat intPart * 10 ^ fracPart.length + digitsNat fracPart : Nat) : Int)
          (10 ^ fracPart.length))
      else Option.none
  body.map (fun q => if neg then -q else q)

/-- Python `float(x)`: numbers and booleans coerce, numeric strings parse,
`None` (and anything else) raises, modelled as `Option.none`. -/
def pyFloat : PyVal → Option Rat
  | .bool b => some (if b then 1 else 0)
  | .num q => some q
  | .str s => pyFloatOfString s
  | .none => Option.none

/-- Python `bool(x)` (truthiness). -/
def pyBool : PyVal → Bool
  | .bool b => b
  | .num q => if q = 0 then false else true
  | .str s => if s = "" then false else true
  | .none => false

/-- The numeric value of a Python number or boolean, if it is one
(`bool` is a subclass of `int` in Python). -/
def pyNumVal : PyVal → Option Rat
  | .bool b => some (if b then 1 else 0)
  | .num q => some q
  | _ => Option.none

/-- Python `==` on the modelled values: numbers and booleans compare
numerically (`True == 1`), strings compare as strings, `None == None`,
every other cross-type comparison is `False` (never an exception). -/
def pyEq (a b : PyVal) : Bool :=
  match pyNumVal a, pyNumVal b with
  | some p, some q => p = q
  | _, _ =>
    match a, b with
    | .str s, .str t => s = t
    | .none, .none => true
    | _, _ => false

/-- Python `<`: numeric for numbers/booleans, lexicographic for strings,
a `TypeError` (modelled `Option.none`) for any other combination. -/
def pyLt (a b : PyVal) : Option Bool :=
  match pyNumVal a, pyNumVal b with
  | some p, some q => some (decide (p < q))
  | _, _ =>
    match a, b with
    | .str s, .str t => some (decide (s < t))
    | _, _ => Option.none

/-- Python `<=`: numeric for numbers/booleans, lexicographic for strings
(`s <= t` iff `¬ t < s`), a `TypeError` otherwise. -/
def pyLe (a b : PyVal) : Option Bool :=
  match pyNumVal a, pyNumVal b with
  | some p, some q => some (decide (p ≤ q))
  | _, _ =>
    match a, b with
    | .str s, .str t => some (!(decide (t < s)))
    | _, _ => Option.none

/-- Does the character list `hay` start with `needle`? -/
def startsWithChars : List Char → List Char → Bool
  | [], _ => true
  | _ :: _, [] => false
  | c :: cs, d :: ds => c = d && startsWithChars cs ds

/-- Is `needle` a contiguous substring of `hay` (Python's `needle in hay`)? -/
def substrChars (needle : List Char) : List Char → Bool
  | [] => needle.isEmpty
  | d :: ds => startsWithChars needle (d :: ds) || substrChars needle ds

/-- Python `x in s` for strings. -/
def pyInStr (needle hay : String) : Bool :=
  substrChars needle.toList hay.toList

/-- The entries of the `_OPS` operator table, each a binary predicate that may
raise (`Option.none`).  Mirrors `expert_engine._OPS`:
`'in': lambda a, b: a in b if a is not None else False` — with the modelled
value types the container `b` can only be a string, and a non-string left
operand (or non-string container) is a `TypeError`;
`'contains': (b in a) if both are strings else False`;
`'is_true': bool(a) is True`; `'is_false': bool(a) is False`. -/
def opApply (op : String) (a b : PyVal) : Option Bool :=
  if op = "==" then some (pyEq a b)
  else if op = "!=" then some (!pyEq a b)
  else if op = ">=" then pyLe b a
  else if op = "<=" then pyLe a b
  else if op = ">" then pyLt b a
  else if op = "<" then pyLt a b
  else if op = "in" then
    match a, b with
    | .none, _ => some false
    | .str t, .str s => some (pyInStr t s)
    | _, _ => Option.none
  else if op = "contains" then
    match a, b with
    | .str s, .str t => some (pyInStr t s)
    | _, _ => some false
  else if op = "is_true" then some (pyBool a)
  else if op = "is_false" then some (!pyBool a)
  else Option.none

/-- Membership in the `_OPS` table (its key set). -/
def opSupported (op : String) : Bool :=
  op = "==" || op = "!=" || op = ">=" || op = "<=" || op = ">" || op = "<" ||
  op = "in" || op = "contains" || op = "is_true" || op = "is_false"

/-- A condition dictionary as the engine reads it: `cond.get('type')`,
`cond.get('op', '==')`, `cond.get('value')` (default `None`), and the optional
`'weight'` key (`Option.none` when the key is absent). -/
structure Cond where
  type : Option String := Option.none
  op : String := "=="
  value : PyVal := PyVal.none
  weight : Option PyVal := Option.none
deriving DecidableEq

/-- A fact mapping: Python dict from fact name to value. -/
def Facts := List (String × PyVal)

instance : DecidableEq Facts := by
  unfold Facts; infer_instance

/-- The numeric-string coercion inside `_check_condition`: if the fact value
is a string and the comparand is an `int`/`float` (which in Python includes
booleans), parse it as a float when it contains `'.'`, else as an int; on
parse failure keep the original string. -/
def coerceNumeric (factVal condVal : PyVal) : PyVal :=
  match factVal with
  | .str s =>
    match pyNumVal condVal with
    | some _ =>
      if s.contains '.' then
        match pyFloatOfString s with
        | some q => .num q
        | Option.none => .str s
      else
        match pyIntOfString s with
        | some n => .num (n : Rat)
        | Option.none => .str s
    | Option.none => factVal
  | _ => factVal

/-- `expert_engine._check_condition(facts, cond)`: missing fact → `false`;
operator not in `_OPS` → `false`; otherwise coerce and apply the operator,
any exception during the comparison → `false`. -/
def check_condition (facts : Facts) (cond : Cond) : Bool :=
  match cond.type with
  | Option.none => false
  | some t =>
    match facts.lookup t with
    | Option.none => false
    | some factVal =>
      if opSupported cond.op then
        (opApply cond.op (coerceNumeric factVal cond.value) cond.value).getD false
      else false

/-- `expert_engine._normalize_confidence(c)`: non-coercible input defaults to
0.5; then `cf <= 0 → 0.0`, `1 < cf <= 100 → cf/100`, `cf > 100 → 1.0`,
otherwise `cf` unchanged. -/
def normalize_confidence (c : PyVal) : Rat :=
  match pyFloat c with
  | Option.none => 1/2
  | some cf =>
    if cf ≤ 0 then 0
    else if 1 < cf ∧ cf ≤ 100 then cf / 100
    else if 100 < cf then 1
    else cf

/-- A rule dictionary as the engine reads it.  The 100 catalog rules all
carry every key; `confidence`, `evidence` and `remedy` are optional because
the engine reads them with `dict.get` defaults (which differ per call site,
so the defaults live at the use sites, not here). -/
structure Rule where
  id : Int
  name : String
  confidence : Option PyVal := Option.none
  evidence : Option String := Option.none
  remedy : Option String := Option.none
  conditions : List Cond := []
  not_conditions : List Cond := []
deriving DecidableEq

/-- The result dictionary of `evaluate_rule`.  (`match_rat` models the
`match_ratio` entry.) -/
structure EvalResult where
  matched_conditions : List Cond
  unmatched_conditions : List Cond
  total_weight : Rat
  matched_weight : Rat
  match_rat : Rat
  confidence : Rat
  score : Rat
  negation_triggered : Bool
deriving DecidableEq

/-- The loop over `rule.conditions` in `evaluate_rule`: for each condition
`w = float(c.get('weight', 1.0))` (which raises, modelled `.error ()`, when
the weight is not float-coercible), accumulate total and matched weight and
partition the conditions in order.  Returns
(total_weight, matched_weight, matched, unmatched). -/
def evalConds (facts : Facts) : List Cond → Except Unit (Rat × Rat × List Cond × List Cond)
  | [] => .ok (0, 0, [], [])
  | c :: cs =>
    match pyFloat (c.weight.getD (PyVal.num 1)) with
    | Option.none => .error ()
    | some w =>
      match evalConds facts cs with
      | .error e => .error e
      | .ok (tw, mw, ms, us) =>
        if check_condition facts c then .ok (w + tw, w + mw, c :: ms, us)
        else .ok (w + tw, mw, ms, c :: us)

/-- `expert_engine.evaluate_rule(rule, facts)`: weighted match ratio,
negation veto, normalized confidence, `score = confidence * match_ratio`.
The only way the Python function can raise is the weight coercion inside
the condition loop, hence the `Except`. -/
def evaluate_rule (rule : Rule) (facts : Facts) : Except Unit EvalResult :=
  match evalConds facts rule.conditions with
  | .error e => .error e
  | .ok (tw, mw, ms, us) =>
    let neg := rule.not_conditions.any (fun c => check_condition facts c)
    let ratio0 : Rat := if tw = 0 then 0 else mw / tw
    let ratio1 : Rat := if neg then 0 else ratio0
    let conf := normalize_confidence (rule.confidence.getD (PyVal.num (1/2)))
    .ok { matched_conditions := ms, unmatched_conditions := us,
          total_weight := tw, matched_weight := mw,
          match_rat := ratio1, confidence := conf,
          score := conf * ratio1, negation_triggered := neg }

/-- A diagnosis record as returned by `run_diagnosis` (`match_rat` models the
`match_ratio` entry). -/
structure Diag where
  id : Int
  name : String
  confidence : Rat
  evidence : String
  remedy : String
  match_rat : Rat
  score : Rat
  matched_conditions : List Cond
  unmatched_conditions : List Cond
deriving DecidableEq

/-- The dictionary appended to `matches` for a rule with positive score. -/
def mkDiag (r : Rule) (res : EvalResult) : Diag :=
  { id := r.id, name := r.name, confidence := res.confidence,
    evidence := r.evidence.getD "", remedy := r.remedy.getD "",
    match_rat := res.match_rat, score := res.score,
    matched_conditions := res.matched_conditions,
    unmatched_conditions := res.unmatched_conditions }

/-- One iteration of the scoring loop in `run_diagnosis`: skip the sentinel
rule (id 100), silently skip any rule whose evaluation raises, keep the rule
iff its score is positive. -/
def evalMatch (facts : Facts) (r : Rule) : Option Diag :=
  if r.id = 100 then Option.none
  else
    match evaluate_rule r facts with
    | .error _ => Option.none
    | .ok res => if 0 < res.score then some (mkDiag r res) else Option.none

/-- The `matches` list built by the scoring loop of `run_diagnosis`. -/
def matchesOf (rules : List Rule) (facts : Facts) : List Diag :=
  rules.filterMap (evalMatch facts)

/-- `SCORE_THRESHOLD = 0.25` in `run_diagnosis`. -/
def SCORE_THRESHOLD : Rat := 1/4

/-- The `matches_above` list of `run_diagnosis`. -/
def aboveOf (rules : List Rule) (facts : Facts) : List Diag :=
  (matchesOf rules facts).filter (fun m => SCORE_THRESHOLD ≤ m.score)

/-- Stable insertion of `x` into a list already sorted by score descending:
`x` goes before the first element whose score is `≤ x.score`. -/
def insertDesc (x : Diag) : List Diag → List Diag
  | [] => [x]
  | y :: ys => if x.score < y.score then y :: insertDesc x ys else x :: y :: ys

/-- Python's `sorted(l, key=lambda x: x['score'], reverse=True)`: a stable
sort by score descending. -/
def sortDesc : List Diag → List Diag
  | [] => []
  | x :: xs => insertDesc x (sortDesc xs)

/-- The fallback diagnosis `run_diagnosis` builds from the sentinel rule:
`confidence = _normalize_confidence(fallback.get('confidence', 0.2))`,
score and match_ratio 0.0, empty matched/unmatched lists. -/
def fallbackDiag (fb : Rule) : Diag :=
  { id := fb.id, name := fb.name,
    confidence := normalize_confidence (fb.confidence.getD (PyVal.num (1/5))),
    evidence := fb.evidence.getD "", remedy := fb.remedy.getD "",
    match_rat := 0, score := 0,
    matched_conditions := [], unmatched_conditions := [] }

/-- `run_diagnosis` over an explicit catalog (the Python function closes over
the module-level `RULES`; the catalog is a parameter here so the loop policy
can be stated for any catalog): if `matches_above` is non-empty return it
sorted by score descending; else if `matches` is non-empty return its top 3;
else return the sentinel fallback found by id 100 (or `[]` if the catalog has
no sentinel). -/
def runDiagnosisWith (rules : List Rule) (facts : Facts) : List Diag :=
  if aboveOf rules facts ≠ [] then sortDesc (aboveOf rules facts)
  else if matchesOf rules facts ≠ [] then (sortDesc (matchesOf rules facts)).take 3
  else
    match rules.find? (fun r => r.id == 100) with
    | some fb => [fallbackDiag fb]
    | Option.none => []

/-! The 100-rule catalog `expert_engine.RULES`, transcribed literally from
the source, one definition per rule (float literals as exact decimal
rationals).  Every catalog rule defines exactly the keys id, name,
confidence, evidence, remedy and conditions; no condition carries a weight
key and no rule has not_conditions. -/

def catRule1 : Rule :=
  { id := 1, name := "Slow Network — High Latency",
    confidence := some (PyVal.num (13/20)),
    evidence := some "High ping latency detected",
    remedy := some "Restart router, test wired connection, check ISP congestion.",
    conditions := [{ type := some "ping_latency", op := ">=", value := PyVal.num 200 }] }

def catRule2 : Rule :=
  { id := 2, name := "Slow Network — Low Throughput",
    confidence := some (PyVal.num (7/10)),
    evidence := some "Low measured throughput (Mbps)",
    remedy := some "Run speedtest, close background downloads, contact ISP if persist.",
    conditions := [{ type := some "speed_mbps", op := "<", value := PyVal.num 1 }] }

def catRule3 : Rule :=
  { id := 3, name := "Router/Gateway Failure",
    confidence := some (PyVal.num (19/20)),
    evidence := some "Cannot ping gateway while connected to network",
    remedy := some "Power-cycle router, check modem-to-router link and cables.",
    conditions := [{ type := some "gateway_ping", op := "==", value := PyVal.str "fail" },
    { type := some "wifi_connected", op := "==", value := PyVal.bool true }] }

def catRule4 : Rule :=
  { id := 4, name := "DNS Resolution Failure",
    confidence := some (PyVal.num (19/20)),
    evidence := some "IP pings succeed but domain names fail",
    remedy := some "Change DNS to public DNS (8.8.8.8), flush DNS cache.",
    conditions := [{ type := some "ping_ip", op := "==", value := PyVal.str "success" },
    { type := some "ping_domain", op := "==", value := PyVal.str "fail" }] }

def catRule5 : Rule :=
  { id := 5, name := "IP Address Conflict",
    confidence := some (PyVal.num (19/20)),
    evidence := some "OS reports IP conflict message",
    remedy := some "Enable DHCP or assign unique static IP addresses.",
    conditions := [{ type := some "ip_conflict_msg", op := "==", value := PyVal.bool true }] }

def catRule6 : Rule :=
  { id := 6, name := "Wi-Fi Authentication Failure",
    confidence := some (PyVal.num (9/10)),
    evidence := some "User can\x27t authenticate to SSID",
    remedy := some "Verify SSID/password, check RADIUS server if used.",
    conditions := [{ type := some "wifi_auth_fail", op := "==", value := PyVal.bool true }] }

def catRule7 : Rule :=
  { id := 7, name := "DHCP Server Issue",
    confidence := some (PyVal.num (9/10)),
    evidence := some "Devices receive no IP or 169.254.x.x address",
    remedy := some "Restart DHCP server or router; check DHCP scope settings.",
    conditions := [{ type := some "ip_address", op := "contains", value := PyVal.str "169.254" }] }

def catRule8 : Rule :=
  { id := 8, name := "Cable/Link Fault",
    confidence := some (PyVal.num (9/10)),
    evidence := some "Ethernet link down or flapping",
    remedy := some "Replace cable; test port; check switch port LED.",
    conditions := [{ type := some "eth_link", op := "==", value := PyVal.str "down" }] }

def catRule9 : Rule :=
  { id := 9, name := "High Packet Loss",
    confidence := some (PyVal.num (17/20)),
    evidence := some "Packet loss above acceptable threshold",
    remedy := some "Check Wi-Fi interference, change channel, test wired path.",
    conditions := [{ type := some "packet_loss", op := ">", value := PyVal.num 5 }] }

def catRule10 : Rule :=
  { id := 10, name := "ISP Outage",
    confidence := some (PyVal.num (9/10)),
    evidence := some "Multiple users report no internet; external checks fail",
    remedy := some "Contact ISP; check outage map/status.",
    conditions := [{ type := some "multiple_users_down", op := "==", value := PyVal.bool true },
    { type := some "internet_status_external", op := "==", value := PyVal.str "down" }] }

def catRule11 : Rule :=
  { id := 11, name := "Wi-Fi Interference (Low RSSI)",
    confidence := some (PyVal.num (4/5)),
    evidence := some "Low RSSI/signal strength",
    remedy := some "Move closer to AP; reduce interference; change channel.",
    conditions := [{ type := some "rssi", op := "<", value := PyVal.num (-75) }] }

def catRule12 : Rule :=
  { id := 12, name := "Too Many Connected Clients",
    confidence := some (PyVal.num (7/10)),
    evidence := some "AP reports high client count",
    remedy := some "Balance load; add another AP; use wired connections.",
    conditions := [{ type := some "ap_client_count", op := ">", value := PyVal.num 50 }] }

def catRule13 : Rule :=
  { id := 13, name := "NAT or Port Forwarding Problem",
    confidence := some (PyVal.num (3/4)),
    evidence := some "Inbound services unreachable",
    remedy := some "Check NAT/port mappings and firewall rules.",
    conditions := [{ type := some "inbound_unreachable", op := "==", value := PyVal.bool true }] }

def catRule14 : Rule :=
  { id := 14, name := "Proxy Misconfiguration",
    confidence := some (PyVal.num (7/10)),
    evidence := some "Browser cannot access web but ping works",
    remedy := some "Disable proxy or correct settings.",
    conditions := [{ type := some "browser_err", op := "==", value := PyVal.str "proxy_required" },
    { type := some "ping_domain", op := "==", value := PyVal.str "success" }] }

def catRule15 : Rule :=
  { id := 15, name := "Switch Port Disabled",
    confidence := some (PyVal.num (9/10)),
    evidence := some "Device connected but no carrier; switch port shows disabled",
    remedy := some "Enable port; check VLAN membership.",
    conditions := [{ type := some "switch_port_status", op := "==", value := PyVal.str "disabled" }] }

def catRule16 : Rule :=
  { id := 16, name := "Misconfigured VLAN",
    confidence := some (PyVal.num (17/20)),
    evidence := some "Device in wrong VLAN; cannot reach internal resources",
    remedy := some "Check VLAN tagging and switch config.",
    conditions := [{ type := some "vlan_mismatch", op := "==", value := PyVal.bool true }] }

def catRule17 : Rule :=
  { id := 17, name := "DNS Cache Poisoning Suspected",
    confidence := some (PyVal.num (13/20)),
    evidence := some "Unexpected domain resolution to incorrect IP",
    remedy := some "Flush caches, check DNS servers, run diagnostics.",
    conditions := [{ type := some "unexpected_dns_ip", op := "==", value := PyVal.bool true }] }

def catRule18 : Rule :=
  { id := 18, name := "MTU Mismatch",
    confidence := some (PyVal.num (3/5)),
    evidence := some "Large packets fail or fragment",
    remedy := some "Adjust MTU, test Path MTU discovery.",
    conditions := [{ type := some "mtu_fail", op := "==", value := PyVal.bool true }] }

def catRule19 : Rule :=
  { id := 19, name := "VPN Tunnel Down",
    confidence := some (PyVal.num (9/10)),
    evidence := some "VPN client cannot establish tunnel",
    remedy := some "Check credentials, check VPN server and logs.",
    conditions := [{ type := some "vpn_status", op := "==", value := PyVal.str "down" }] }

def catRule20 : Rule :=
  { id := 20, name := "Slow DNS Response (High Latency)",
    confidence := some (PyVal.num (7/10)),
    evidence := some "DNS queries take long to resolve",
    remedy := some "Use alternative DNS or check DNS server load.",
    conditions := [{ type := some "dns_latency_ms", op := ">", value := PyVal.num 200 }] }

def catRule21 : Rule :=
  { id := 21, name := "Router CPU High Load",
    confidence := some (PyVal.num (7/10)),
    evidence := some "Router CPU near 100%",
    remedy := some "Reboot device; check for attack or misconfiguration.",
    conditions := [{ type := some "router_cpu", op := ">", value := PyVal.num 90 }] }

def catRule22 : Rule :=
  { id := 22, name := "ISP Throttling Detected",
    confidence := some (PyVal.num (3/5)),
    evidence := some "Speed varies with service type/time",
    remedy := some "Contact ISP, test at different times/services.",
    conditions := [{ type := some "speed_variance", op := "==", value := PyVal.bool true },
    { type := some "speed_mbps", op := "<", value := PyVal.num 5 }] }

def catRule23 : Rule :=
  { id := 23, name := "IPv6 Misconfiguration",
    confidence := some (PyVal.num (3/5)),
    evidence := some "IPv6 DNS or routing errors",
    remedy := some "Check IPv6 addressing and prefix settings.",
    conditions := [{ type := some "ipv6_error", op := "==", value := PyVal.bool true }] }

def catRule24 : Rule :=
  { id := 24, name := "Broken ARP Cache",
    confidence := some (PyVal.num (3/5)),
    evidence := some "ARP entries wrong or stale",
    remedy := some "Clear ARP cache, check duplicates.",
    conditions := [{ type := some "arp_conflict", op := "==", value := PyVal.bool true }] }

def catRule25 : Rule :=
  { id := 25, name := "Captive Portal Blocking",
    confidence := some (PyVal.num (17/20)),
    evidence := some "User must sign into captive portal",
    remedy := some "Open browser to sign in to captive portal.",
    conditions := [{ type := some "captive_portal", op := "==", value := PyVal.bool true }] }

def catRule26 : Rule :=
  { id := 26, name := "Misconfigured Firewall Blocking",
    confidence := some (PyVal.num (9/10)),
    evidence := some "Firewall denies required traffic",
    remedy := some "Adjust rules to allow required ports/services.",
    conditions := [{ type := some "firewall_block", op := "==", value := PyVal.bool true }] }

def catRule27 : Rule :=
  { id := 27, name := "Proxy Authentication Required",
    confidence := some (PyVal.num (4/5)),
    evidence := some "Browser error requiring proxy authentication",
    remedy := some "Provide credentials, configure browser or disable proxy.",
    conditions := [{ type := some "browser_err", op := "==", value := PyVal.str "proxy_auth" }] }

def catRule28 : Rule :=
  { id := 28, name := "Slow Wireless Roaming",
    confidence := some (PyVal.num (3/5)),
    evidence := some "Clients roam between APs causing brief disconnects",
    remedy := some "Tune roaming aggressiveness or AP placement.",
    conditions := [{ type := some "roam_count", op := ">", value := PyVal.num 10 }] }

def catRule29 : Rule :=
  { id := 29, name := "Switch Overloaded (High Errors)",
    confidence := some (PyVal.num (7/10)),
    evidence := some "High interface error counters",
    remedy := some "Check cabling, replace faulty NIC/switch module.",
    conditions := [{ type := some "switch_errors", op := ">", value := PyVal.num 1000 }] }

def catRule30 : Rule :=
  { id := 30, name := "Mis-set Default Gateway",
    confidence := some (PyVal.num (4/5)),
    evidence := some "Default gateway incorrect",
    remedy := some "Set correct gateway in network config.",
    conditions := [{ type := some "gateway_correct", op := "==", value := PyVal.bool false }] }

def catRule31 : Rule :=
  { id := 31, name := "External Backhaul Congestion",
    confidence := some (PyVal.num (3/5)),
    evidence := some "High latency to internet but low to intranet",
    remedy := some "Contact ISP; measure peering issues.",
    conditions := [{ type := some "latency_internet", op := ">", value := PyVal.num 200 },
    { type := some "latency_intranet", op := "<", value := PyVal.num 50 }] }

def catRule32 : Rule :=
  { id := 32, name := "DNS TTL Too Low/High",
    confidence := some (PyVal.num (1/2)),
    evidence := some "Frequent DNS changes or stale results",
    remedy := some "Tune TTL values appropriately.",
    conditions := [{ type := some "dns_ttl", op := ">", value := PyVal.num 86400 }] }

def catRule33 : Rule :=
  { id := 33, name := "Routing Loop Detected",
    confidence := some (PyVal.num (9/10)),
    evidence := some "Traceroute shows loop",
    remedy := some "Fix routing configuration to remove loop.",
    conditions := [{ type := some "traceroute_loop", op := "==", value := PyVal.bool true }] }

def catRule34 : Rule :=
  { id := 34, name := "ARP Flood / DDoS Suspected",
    confidence := some (PyVal.num (4/5)),
    evidence := some "Excessive ARP traffic or broadcast storms",
    remedy := some "Isolate offending host; inspect traffic with switch mirroring.",
    conditions := [{ type := some "arp_flood", op := "==", value := PyVal.bool true }] }

def catRule35 : Rule :=
  { id := 35, name := "Poor Wi-Fi Security (Open SSID)",
    confidence := some (PyVal.num (1/2)),
    evidence := some "Open Wi-Fi allowing unauthorized access",
    remedy := some "Enable WPA2/WPA3 security.",
    conditions := [{ type := some "ssid_secure", op := "==", value := PyVal.bool false }] }

def catRule36 : Rule :=
  { id := 36, name := "Corrupted Network Adapter Driver",
    confidence := some (PyVal.num (4/5)),
    evidence := some "Driver errors in event logs",
    remedy := some "Reinstall/update NIC drivers.",
    conditions := [{ type := some "driver_error_count", op := ">", value := PyVal.num 3 }] }

def catRule37 : Rule :=
  { id := 37, name := "IPv4 Routing Missing",
    confidence := some (PyVal.num (4/5)),
    evidence := some "Cannot reach networks beyond local segment",
    remedy := some "Add static routes or fix OSPF/BGP config.",
    conditions := [{ type := some "route_missing", op := "==", value := PyVal.bool true }] }

def catRule38 : Rule :=
  { id := 38, name := "AP Power Issue",
    confidence := some (PyVal.num (17/20)),
    evidence := some "AP shows no power or frequent reboots",
    remedy := some "Check PoE injector/switch and power supply.",
    conditions := [{ type := some "ap_reboot", op := "==", value := PyVal.bool true }] }

def catRule39 : Rule :=
  { id := 39, name := "Misconfigured NAT Translation",
    confidence := some (PyVal.num (7/10)),
    evidence := some "Internal host cannot reach external services",
    remedy := some "Review NAT rules and mappings.",
    conditions := [{ type := some "nat_mismatch", op := "==", value := PyVal.bool true }] }

def catRule40 : Rule :=
  { id := 40, name := "Windows Network Profile Blocked",
    confidence := some (PyVal.num (3/5)),
    evidence := some "Windows network set to Public blocking sharing",
    remedy := some "Set to Private or adjust firewall rules.",
    conditions := [{ type := some "windows_profile", op := "==", value := PyVal.str "Public" }] }

def catRule41 : Rule :=
  { id := 41, name := "SSL Interception/Proxy Issue",
    confidence := some (PyVal.num (7/10)),
    evidence := some "HTTPS pages show certificate errors",
    remedy := some "Install trusted CA or disable SSL interception for that site.",
    conditions := [{ type := some "https_cert_err", op := "==", value := PyVal.bool true }] }

def catRule42 : Rule :=
  { id := 42, name := "ISP DNS Hijack",
    confidence := some (PyVal.num (3/5)),
    evidence := some "Known-good domain resolves to ISP ad server",
    remedy := some "Use trusted DNS or VPN.",
    conditions := [{ type := some "dns_hijack", op := "==", value := PyVal.bool true }] }

def catRule43 : Rule :=
  { id := 43, name := "QoS Misconfiguration",
    confidence := some (PyVal.num (3/5)),
    evidence := some "Critical traffic deprioritized",
    remedy := some "Adjust QoS policies to prioritize important flows.",
    conditions := [{ type := some "qos_issues", op := "==", value := PyVal.bool true }] }

def catRule44 : Rule :=
  { id := 44, name := "Cable Duplex Mismatch",
    confidence := some (PyVal.num (7/10)),
    evidence := some "Errors and collisions on interface",
    remedy := some "Set matching duplex settings or use auto-negotiation.",
    conditions := [{ type := some "duplex_mismatch", op := "==", value := PyVal.bool true }] }

def catRule45 : Rule :=
  { id := 45, name := "Network MTU Black Hole",
    confidence := some (PyVal.num (7/10)),
    evidence := some "Certain protocols fail with large packets",
    remedy := some "Lower MTU or enable PMTUD.",
    conditions := [{ type := some "mtu_blackhole", op := "==", value := PyVal.bool true }] }

def catRule46 : Rule :=
  { id := 46, name := "ARP Spoofing Attempt",
    confidence := some (PyVal.num (4/5)),
    evidence := some "Conflicting ARP entries",
    remedy := some "Isolate attacker, enable port security.",
    conditions := [{ type := some "arp_spoof_detected", op := "==", value := PyVal.bool true }] }

def catRule47 : Rule :=
  { id := 47, name := "Time Synchronization Error",
    confidence := some (PyVal.num (1/2)),
    evidence := some "NTP out of sync causing auth issues",
    remedy := some "Sync time via NTP.",
    conditions := [{ type := some "ntp_ok", op := "==", value := PyVal.bool false }] }

def catRule48 : Rule :=
  { id := 48, name := "SSDP/UPnP Flood",
    confidence := some (PyVal.num (11/20)),
    evidence := some "Excessive SSDP traffic",
    remedy := some "Disable UPnP where unnecessary.",
    conditions := [{ type := some "ssdp_flood", op := "==", value := PyVal.bool true }] }

def catRule49 : Rule :=
  { id := 49, name := "Port Scan Detected",
    confidence := some (PyVal.num (17/20)),
    evidence := some "Multiple ports probed from same IP",
    remedy := some "Block scanner and investigate source.",
    conditions := [{ type := some "port_scan", op := "==", value := PyVal.bool true }] }

def catRule50 : Rule :=
  { id := 50, name := "Router Configuration Corruption",
    confidence := some (PyVal.num (9/10)),
    evidence := some "Config fails to load correctly",
    remedy := some "Restore from backup; reconfigure router.",
    conditions := [{ type := some "router_config_good", op := "==", value := PyVal.bool false }] }

def catRule51 : Rule :=
  { id := 51, name := "Slow Wireless Encryption Overhead",
    confidence := some (PyVal.num (1/2)),
    evidence := some "Weak hardware struggling with encryption",
    remedy := some "Upgrade AP hardware; use faster encryption modes.",
    conditions := [{ type := some "old_ap_hw", op := "==", value := PyVal.bool true }] }

def catRule52 : Rule :=
  { id := 52, name := "Mobile Carrier Data Fallback",
    confidence := some (PyVal.num (3/5)),
    evidence := some "Client using mobile data instead of Wi-Fi",
    remedy := some "Disable mobile data or connect to Wi-Fi correctly.",
    conditions := [{ type := some "client_online_via", op := "==", value := PyVal.str "mobile" }] }

def catRule53 : Rule :=
  { id := 53, name := "Blocked by Content Filter",
    confidence := some (PyVal.num (7/10)),
    evidence := some "Access blocked by content filter or web filter",
    remedy := some "Request unblock or adjust filter policy.",
    conditions := [{ type := some "content_filter_block", op := "==", value := PyVal.bool true }] }

def catRule54 : Rule :=
  { id := 54, name := "ISP Peering Problem",
    confidence := some (PyVal.num (3/5)),
    evidence := some "High latency to specific AS paths",
    remedy := some "Contact ISP to report peering issues.",
    conditions := [{ type := some "as_path_latency", op := ">", value := PyVal.num 200 }] }

def catRule55 : Rule :=
  { id := 55, name := "Low Wi-Fi Channel Width / Legacy Rates",
    confidence := some (PyVal.num (3/5)),
    evidence := some "AP using legacy rates reducing throughput",
    remedy := some "Change channel width and disable legacy rates.",
    conditions := [{ type := some "legacy_rate_enabled", op := "==", value := PyVal.bool true }] }

def catRule56 : Rule :=
  { id := 56, name := "No Power — PSU Fault",
    confidence := some (PyVal.num (49/50)),
    evidence := some "PC shows no signs of power",
    remedy := some "Check mains, PSU connectors, test/replace PSU.",
    conditions := [{ type := some "pc_power", op := "==", value := PyVal.bool false }] }

def catRule57 : Rule :=
  { id := 57, name := "No Display — GPU/Monitor Issue",
    confidence := some (PyVal.num (9/10)),
    evidence := some "Power on but no display, external monitor fails",
    remedy := some "Check monitor, cables, reseat GPU.",
    conditions := [{ type := some "pc_power", op := "==", value := PyVal.bool true },
    { type := some "display", op := "==", value := PyVal.str "no" }] }

def catRule58 : Rule :=
  { id := 58, name := "BIOS Beep Memory Error",
    confidence := some (PyVal.num (19/20)),
    evidence := some "Beep codes consistent with RAM error",
    remedy := some "Reseat RAM, run memtest, replace defective stick.",
    conditions := [{ type := some "beep_codes", op := "contains", value := PyVal.str "mem" }] }

def catRule59 : Rule :=
  { id := 59, name := "BIOS Beep GPU Error",
    confidence := some (PyVal.num (19/20)),
    evidence := some "Beep codes indicate GPU/graphics failure",
    remedy := some "Reseat GPU, test with known-good card.",
    conditions := [{ type := some "beep_codes", op := "contains", value := PyVal.str "gpu" }] }

def catRule60 : Rule :=
  { id := 60, name := "Overheating — Fan/Heatsink Fault",
    confidence := some (PyVal.num (23/25)),
    evidence := some "CPU temp dangerously high",
    remedy := some "Clean dust, reapply thermal paste, replace fan.",
    conditions := [{ type := some "cpu_temp", op := ">", value := PyVal.num 80 }] }

def catRule61 : Rule :=
  { id := 61, name := "Thermal Throttling",
    confidence := some (PyVal.num (17/20)),
    evidence := some "High temps causing low performance",
    remedy := some "Improve cooling, check background processes.",
    conditions := [{ type := some "cpu_temp", op := ">", value := PyVal.num 70 },
    { type := some "slow_performance", op := "==", value := PyVal.bool true }] }

def catRule62 : Rule :=
  { id := 62, name := "Failing HDD/SSD",
    confidence := some (PyVal.num (19/20)),
    evidence := some "SMART disk health low or many bad sectors",
    remedy := some "Backup immediately and replace drive.",
    conditions := [{ type := some "disk_health", op := "<", value := PyVal.num 50 }] }

def catRule63 : Rule :=
  { id := 63, name := "Corrupted OS Bootloader",
    confidence := some (PyVal.num (9/10)),
    evidence := some "No OS boot, bootloader errors",
    remedy := some "Repair bootloader or restore OS from backup.",
    conditions := [{ type := some "boot_error", op := "contains", value := PyVal.str "NTLDR" },
    { type := some "os_present", op := "==", value := PyVal.bool true }] }

def catRule64 : Rule :=
  { id := 64, name := "Slow Boot — Disk or Startup Bloat",
    confidence := some (PyVal.num (4/5)),
    evidence := some "Slow boot with high disk usage",
    remedy := some "Disable startup apps, check disk health.",
    conditions := [{ type := some "slow_boot", op := "==", value := PyVal.bool true },
    { type := some "disk_usage_startup", op := ">", value := PyVal.num 90 }] }

def catRule65 : Rule :=
  { id := 65, name := "Application Crash — Memory Leak",
    confidence := some (PyVal.num (17/20)),
    evidence := some "App crashes with RAM near 100%",
    remedy := some "Restart app, update/reinstall, increase RAM.",
    conditions := [{ type := some "app_crash", op := "==", value := PyVal.bool true },
    { type := some "ram_usage", op := ">", value := PyVal.num 90 }] }

def catRule66 : Rule :=
  { id := 66, name := "Application Crash — Corrupted Install",
    confidence := some (PyVal.num (4/5)),
    evidence := some "Crash across runs with different inputs",
    remedy := some "Reinstall application or check logs.",
    conditions := [{ type := some "app_crash", op := "==", value := PyVal.bool true },
    { type := some "app_reinstall_attempted", op := "==", value := PyVal.bool false }] }

def catRule67 : Rule :=
  { id := 67, name := "Possible Malware — Suspicious Popups & Idle CPU",
    confidence := some (PyVal.num (9/10)),
    evidence := some "Frequent popups with high idle CPU",
    remedy := some "Disconnect network, run offline antivirus, restore from known good backup.",
    conditions := [{ type := some "popups", op := "==", value := PyVal.bool true },
    { type := some "idle_cpu", op := ">", value := PyVal.num 80 }] }

def catRule68 : Rule :=
  { id := 68, name := "Ransomware Suspected",
    confidence := some (PyVal.num (19/20)),
    evidence := some "Files encrypted or ransom note detected",
    remedy := some "Isolate host, preserve logs, restore from backups; do not pay ransom.",
    conditions := [{ type := some "files_encrypted", op := "==", value := PyVal.bool true }] }

def catRule69 : Rule :=
  { id := 69, name := "Driver Conflict",
    confidence := some (PyVal.num (17/20)),
    evidence := some "Driver crashes or mismatched driver versions",
    remedy := some "Roll back or update driver; use vendor driver.",
    conditions := [{ type := some "driver_conflict", op := "==", value := PyVal.bool true }] }

def catRule70 : Rule :=
  { id := 70, name := "GPU Driver Crash/Black Screen",
    confidence := some (PyVal.num (9/10)),
    evidence := some "Display resets when launching GPU-heavy apps",
    remedy := some "Update GPU drivers, check power connectors.",
    conditions := [{ type := some "gpu_reset", op := "==", value := PyVal.bool true }] }

def catRule71 : Rule :=
  { id := 71, name := "Battery Failure (Laptop)",
    confidence := some (PyVal.num (9/10)),
    evidence := some "Battery not charging or holds no charge",
    remedy := some "Replace battery or AC adapter.",
    conditions := [{ type := some "battery_health", op := "<", value := PyVal.num 20 }] }

def catRule72 : Rule :=
  { id := 72, name := "Thermal Paste Degraded",
    confidence := some (PyVal.num (3/5)),
    evidence := some "High temps despite fan functioning",
    remedy := some "Reapply thermal paste and reseat cooler.",
    conditions := [{ type := some "fan_speed_ok", op := "==", value := PyVal.bool true },
    { type := some "cpu_temp", op := ">", value := PyVal.num 85 }] }

def catRule73 : Rule :=
  { id := 73, name := "Loose Power Connector",
    confidence := some (PyVal.num (17/20)),
    evidence := some "Intermittent power or sudden shutdowns",
    remedy := some "Check cables and connectors.",
    conditions := [{ type := some "sudden_shutdown", op := "==", value := PyVal.bool true },
    { type := some "power_bad_report", op := "==", value := PyVal.bool true }] }

def catRule74 : Rule :=
  { id := 74, name := "Corrupted System Files",
    confidence := some (PyVal.num (4/5)),
    evidence := some "SFC or system repair detects corruption",
    remedy := some "Run system file checker and repair tools.",
    conditions := [{ type := some "sfc_errors", op := ">", value := PyVal.num 0 }] }

def catRule75 : Rule :=
  { id := 75, name := "Windows Update Caused Regression",
    confidence := some (PyVal.num (3/5)),
    evidence := some "Issue started after recent Windows update",
    remedy := some "Uninstall problematic update or use restore point.",
    conditions := [{ type := some "recent_update", op := "==", value := PyVal.bool true },
    { type := some "issue_started_after_update", op := "==", value := PyVal.bool true }] }

def catRule76 : Rule :=
  { id := 76, name := "File System Corruption",
    confidence := some (PyVal.num (9/10)),
    evidence := some "CHKDSK finds errors",
    remedy := some "Repair filesystem and restore backups.",
    conditions := [{ type := some "chkdsk_errors", op := ">", value := PyVal.num 0 }] }

def catRule77 : Rule :=
  { id := 77, name := "Malfunctioning Peripheral (USB)",
    confidence := some (PyVal.num (4/5)),
    evidence := some "USB device disconnects or errors",
    remedy := some "Try different port, check power, update drivers.",
    conditions := [{ type := some "usb_error", op := "==", value := PyVal.bool true }] }

def catRule78 : Rule :=
  { id := 78, name := "BIOS Settings Corrupt",
    confidence := some (PyVal.num (17/20)),
    evidence := some "Wrong boot order or system settings reset",
    remedy := some "Reset BIOS/UEFI to defaults and reconfigure.",
    conditions := [{ type := some "bios_reset_detected", op := "==", value := PyVal.bool true }] }

def catRule79 : Rule :=
  { id := 79, name := "Windows Activation/License Problem",
    confidence := some (PyVal.num (3/5)),
    evidence := some "Activation errors",
    remedy := some "Reactivate Windows or check license keys.",
    conditions := [{ type := some "win_activate_err", op := "==", value := PyVal.bool true }] }

def catRule80 : Rule :=
  { id := 80, name := "Insufficient RAM for Workload",
    confidence := some (PyVal.num (17/20)),
    evidence := some "High memory usage under expected workload",
    remedy := some "Add RAM or optimize apps.",
    conditions := [{ type := some "ram_usage", op := ">", value := PyVal.num 85 },
    { type := some "expected_workload", op := "==", value := PyVal.str "normal" }] }

def catRule81 : Rule :=
  { id := 81, name := "Corrupted Browser Profile",
    confidence := some (PyVal.num (7/10)),
    evidence := some "Browser crashes or misbehaves across sites",
    remedy := some "Reset profile or reinstall browser.",
    conditions := [{ type := some "browser_crash", op := "==", value := PyVal.bool true },
    { type := some "browser_profile_old", op := "==", value := PyVal.bool true }] }

def catRule82 : Rule :=
  { id := 82, name := "System Overloaded by Background Tasks",
    confidence := some (PyVal.num (3/4)),
    evidence := some "High CPU/disk caused by background process",
    remedy := some "Identify and stop background tasks; schedule jobs off-hours.",
    conditions := [{ type := some "background_cpu", op := ">", value := PyVal.num 60 }] }

def catRule83 : Rule :=
  { id := 83, name := "Heat Sink Not Properly Mounted",
    confidence := some (PyVal.num (9/10)),
    evidence := some "High temps + uneven core temps",
    remedy := some "Reseat heatsink and reapply thermal paste.",
    conditions := [{ type := some "core_temp_delta", op := ">", value := PyVal.num 20 }] }

def catRule84 : Rule :=
  { id := 84, name := "SSD TRIM Disabled",
    confidence := some (PyVal.num (3/5)),
    evidence := some "SSD performance degradation",
    remedy := some "Enable TRIM and optimize filesystem.",
    conditions := [{ type := some "ssd_trim_enabled", op := "==", value := PyVal.bool false }] }

def catRule85 : Rule :=
  { id := 85, name := "Corrupted User Profile",
    confidence := some (PyVal.num (7/10)),
    evidence := some "User-specific settings missing or corrupted",
    remedy := some "Create new profile and migrate data.",
    conditions := [{ type := some "profile_corrupt", op := "==", value := PyVal.bool true }] }

def catRule86 : Rule :=
  { id := 86, name := "Power Management Bug",
    confidence := some (PyVal.num (3/5)),
    evidence := some "Sleep/wake issues",
    remedy := some "Update power drivers and BIOS.",
    conditions := [{ type := some "sleep_wake_fail", op := "==", value := PyVal.bool true }] }

def catRule87 : Rule :=
  { id := 87, name := "Thermal Sensor Fault",
    confidence := some (PyVal.num (1/2)),
    evidence := some "Temperature readings inconsistent",
    remedy := some "Validate with external sensor or BIOS reading.",
    conditions := [{ type := some "temp_sensor_err", op := "==", value := PyVal.bool true }] }

def catRule88 : Rule :=
  { id := 88, name := "Firmware Bug (Device)",
    confidence := some (PyVal.num (7/10)),
    evidence := some "Device malfunction solved by firmware update",
    remedy := some "Update firmware to latest stable release.",
    conditions := [{ type := some "firmware_old", op := "==", value := PyVal.bool true }] }

def catRule89 : Rule :=
  { id := 89, name := "Corrupted Application Cache",
    confidence := some (PyVal.num (3/5)),
    evidence := some "App misbehavior resolved by clearing cache",
    remedy := some "Clear application cache and restart.",
    conditions := [{ type := some "app_cache_corrupt", op := "==", value := PyVal.bool true }] }

def catRule90 : Rule :=
  { id := 90, name := "Incompatible Peripheral Driver",
    confidence := some (PyVal.num (17/20)),
    evidence := some "Peripheral causes kernel errors",
    remedy := some "Install vendor-supplied driver or remove device.",
    conditions := [{ type := some "kernel_panic_device", op := "==", value := PyVal.bool true }] }

def catRule91 : Rule :=
  { id := 91, name := "Slow System Due to Fragmented Disk",
    confidence := some (PyVal.num (11/20)),
    evidence := some "HDD fragmented and slow I/O",
    remedy := some "Defragment HDD (not SSD).",
    conditions := [{ type := some "hdd_fragmentation", op := ">", value := PyVal.num 30 }] }

def catRule92 : Rule :=
  { id := 92, name := "Corrupted Boot Sector",
    confidence := some (PyVal.num (9/10)),
    evidence := some "Bootloader missing or sector corrupted",
    remedy := some "Repair boot sector using recovery tools.",
    conditions := [{ type := some "boot_sector_ok", op := "==", value := PyVal.bool false }] }

def catRule93 : Rule :=
  { id := 93, name := "Security Policy Blocking Action",
    confidence := some (PyVal.num (7/10)),
    evidence := some "Group policy prevents action",
    remedy := some "Adjust group policy or use admin override.",
    conditions := [{ type := some "gpo_block", op := "==", value := PyVal.bool true }] }

def catRule94 : Rule :=
  { id := 94, name := "Unpatched Vulnerability Detected",
    confidence := some (PyVal.num (4/5)),
    evidence := some "Known vulnerable version detected",
    remedy := some "Patch OS/software and mitigate exposure.",
    conditions := [{ type := some "vuln_found", op := "==", value := PyVal.bool true }] }

def catRule95 : Rule :=
  { id := 95, name := "Corrupted Network Stack (OS)",
    confidence := some (PyVal.num (4/5)),
    evidence := some "Winsock or equivalent corruption symptoms",
    remedy := some "Reset network stack (e.g., netsh winsock reset).",
    conditions := [{ type := some "network_stack_corrupt", op := "==", value := PyVal.bool true }] }

def catRule96 : Rule :=
  { id := 96, name := "Background Update Causing Slowdown",
    confidence := some (PyVal.num (3/5)),
    evidence := some "Auto-updates consuming CPU/disk",
    remedy := some "Schedule updates at off-hours or pause updates.",
    conditions := [{ type := some "auto_update_running", op := "==", value := PyVal.bool true }] }

def catRule97 : Rule :=
  { id := 97, name := "Insufficient Disk Space",
    confidence := some (PyVal.num (9/10)),
    evidence := some "Very low free disk space",
    remedy := some "Clean up disk, remove temp files, extend partition.",
    conditions := [{ type := some "disk_free_percent", op := "<", value := PyVal.num 5 }] }

def catRule98 : Rule :=
  { id := 98, name := "Corrupted Registry (Windows)",
    confidence := some (PyVal.num (3/4)),
    evidence := some "Registry errors reported in logs",
    remedy := some "Repair registry from backup or reinstall OS.",
    conditions := [{ type := some "registry_errors", op := ">", value := PyVal.num 0 }] }

def catRule99 : Rule :=
  { id := 99, name := "Unresponsive System — Kernel Hang",
    confidence := some (PyVal.num (9/10)),
    evidence := some "System becomes unresponsive and requires hard reset",
    remedy := some "Collect memory dump and analyze; update kernel/drivers.",
    conditions := [{ type := some "kernel_hang", op := "==", value := PyVal.bool true }] }

def catRule100 : Rule :=
  { id := 100, name := "Insufficient Data to Diagnose",
    confidence := some (PyVal.num (1/5)),
    evidence := some "Not enough facts supplied to identify root cause",
    remedy := some "Collect more diagnostics (ping, speedtest, temps, logs).",
    conditions := [] }

/-- `expert_engine.RULES`: the catalog in source order. -/
def RULES : List Rule :=
  [catRule1, catRule2, catRule3, catRule4, catRule5, catRule6, catRule7, catRule8, catRule9, catRule10, catRule11, catRule12, catRule13, catRule14, catRule15, catRule16, catRule17, catRule18, catRule19, catRule20, catRule21, catRule22, catRule23, catRule24, catRule25, catRule26, catRule27, catRule28, catRule29, catRule30, catRule31, catRule32, catRule33, catRule34, catRule35, catRule36, catRule37, catRule38, catRule39, catRule40, catRule41, catRule42, catRule43, catRule44, catRule45, catRule46, catRule47, catRule48, catRule49, catRule50, catRule51, catRule52, catRule53, catRule54, catRule55, catRule56, catRule57, catRule58, catRule59, catRule60, catRule61, catRule62, catRule63, catRule64, catRule65, catRule66, catRule67, catRule68, catRule69, catRule70, catRule71, catRule72, catRule73, catRule74, catRule75, catRule76, catRule77, catRule78, catRule79, catRule80, catRule81, catRule82, catRule83, catRule84, catRule85, catRule86, catRule87, catRule88, catRule89, catRule90, catRule91, catRule92, catRule93, catRule94, catRule95, catRule96, catRule97, catRule98, catRule99, catRule100]

/-- `expert_engine.run_diagnosis(facts)`: the ranking loop over the
module-level `RULES` catalog. -/
def run_diagnosis (facts : Facts) : List Diag :=
  runDiagnosisWith RULES facts

/-- The candidate set of `run_diagnosis`: every catalog rule except the
sentinel whose evaluation succeeds with positive score (this is `matches`). -/
def candidates (facts : Facts) : List Diag :=
  matchesOf RULES facts

/-- The sentinel "insufficient data" diagnosis exactly as `run_diagnosis`
returns it on the fallback path (rule id 100, confidence 0.2 normalized,
score 0.0, match_ratio 0.0, empty condition lists). -/
def insufficientDiag : Diag :=
  { id := 100, name := "Insufficient Data to Diagnose", confidence := 1/5,
    evidence := "Not enough facts supplied to identify root cause",
    remedy := "Collect more diagnostics (ping, speedtest, temps, logs).",
    match_rat := 0, score := 0,
    matched_conditions := [], unmatched_conditions := [] }

/-! Properties of the stable descending sort. -/

theorem insertDesc_perm (x : Diag) (l : List Diag) : (insertDesc x l).Perm (x :: l) := by
  induction l with
  | nil => simp [insertDesc]
  | cons y ys ih =>
    unfold insertDesc
    by_cases h : x.score < y.score
    · rw [if_pos h]
      exact (ih.cons y).trans (List.Perm.swap x y ys)
    · rw [if_neg h]

theorem sortDesc_perm (l : List Diag) : (sortDesc l).Perm l := by
  induction l with
  | nil => simp [sortDesc]
  | cons x xs ih => exact (insertDesc_perm x (sortDesc xs)).trans (ih.cons x)

theorem sortDesc_ne_nil {l : List Diag} (h : l ≠ []) : sortDesc l ≠ [] := by
  intro hnil
  exact h ((hnil ▸ sortDesc_perm l).symm.eq_nil)

theorem mem_insertDesc {z x : Diag} {l : List Diag} :
    z ∈ insertDesc x l ↔ z = x ∨ z ∈ l := by
  rw [(insertDesc_perm x l).mem_iff, List.mem_cons]

theorem insertDesc_sorted (x : Diag) {l : List Diag}
    (h : l.Sorted (fun a b => b.score ≤ a.score)) :
    (insertDesc x l).Sorted (fun a b => b.score ≤ a.score) := by
  induction l with
  | nil => simp [insertDesc]
  | cons y ys ih =>
    rw [List.sorted_cons] at h
    unfold insertDesc
    by_cases hxy : x.score < y.score
    · rw [if_pos hxy, List.sorted_cons]
      refine ⟨fun b hb => ?_, ih h.2⟩
      rcases mem_insertDesc.mp hb with rfl | hb
      · exact le_of_lt hxy
      · exact h.1 b hb
    · rw [if_neg hxy, List.sorted_cons]
      push_neg at hxy
      refine ⟨fun b hb => ?_, List.sorted_cons.mpr h⟩
      rcases List.mem_cons.mp hb with rfl | hb
      · exact hxy
      · exact le_trans (h.1 b hb) hxy

theorem sortDesc_sorted (l : List Diag) :
    (sortDesc l).Sorted (fun a b => b.score ≤ a.score) := by
  induction l with
  | nil => simp [sortDesc]
  | cons x xs ih => exact insertDesc_sorted x ih

theorem insertDesc_filter_score (x : Diag) (l : List Diag) (s : Rat) :
    (insertDesc x l).filter (fun m => m.score = s) =
      if x.score = s then x :: l.filter (fun m => m.score = s)
      else l.filter (fun m => m.score = s) := by
  induction l with
  | nil =>
    by_cases h : x.score = s <;> simp [insertDesc, List.filter_cons, h]
  | cons y ys ih =>
    unfold insertDesc
    by_cases hxy : x.score < y.score
    · rw [if_pos hxy]
      by_cases hx : x.score = s
      · have hy : ¬ (y.score = s) := fun hy => absurd hxy (by rw [hx, hy]; exact lt_irrefl s)
        simp [List.filter_cons, hy, ih, hx]
      · simp [List.filter_cons, ih, hx]
    · rw [if_neg hxy]
      by_cases hx : x.score = s <;> simp [List.filter_cons, hx]

theorem sortDesc_filter_score (l : List Diag) (s : Rat) :
    (sortDesc l).filter (fun m => m.score = s) = l.filter (fun m => m.score = s) := by
  induction l with
  | nil => simp [sortDesc]
  | cons x xs ih =>
    show (insertDesc x (sortDesc xs)).filter _ = _
    rw [insertDesc_filter_score, ih]
    by_cases hx : x.score = s <;> simp [List.filter_cons, hx]

/-- The catalog contains the sentinel rule, and it is the one `find?` locates. -/
theorem find_sentinel : RULES.find? (fun r => r.id == 100) = some catRule100 := by rfl

/-- C1: for every fact mapping (including the empty one) `run_diagnosis`
returns a non-empty list of diagnoses, and whenever no catalog rule scores
above zero (the candidate set is empty) it returns exactly the single
"insufficient data" sentinel diagnosis: rule id 100, score 0.0,
match_ratio 0.0, empty matched/unmatched condition lists. -/
theorem run_diagnosis_never_empty (facts : Facts) :
    run_diagnosis facts ≠ [] ∧
    (candidates facts = [] → run_diagnosis facts = [insufficientDiag]) := by
  constructor
  · unfold run_diagnosis runDiagnosisWith
    by_cases h1 : aboveOf RULES facts ≠ []
    · rw [if_pos h1]
      exact sortDesc_ne_nil h1
    · rw [if_neg h1]
      by_cases h2 : matchesOf RULES facts ≠ []
      · rw [if_pos h2]
        obtain ⟨a, as, ha⟩ := List.exists_cons_of_ne_nil (sortDesc_ne_nil h2)
        rw [ha]
        simp
      · rw [if_neg h2, find_sentinel]
        simp
  · intro h
    unfold candidates at h
    have h1 : aboveOf RULES facts = [] := by
      unfold aboveOf
      rw [h]
      rfl
    unfold run_diagnosis runDiagnosisWith
    rw [if_neg (by simp [h1]), if_neg (by simp [h]), find_sentinel]
    decide

/-- Witness for C1 at the empty fact mapping. -/
theorem run_diagnosis_never_empty_wit :
    run_diagnosis [] = [insufficientDiag] ∧ run_diagnosis [] ≠ [] :=
  ⟨(run_diagnosis_never_empty []).2 (by decide), (run_diagnosis_never_empty []).1⟩

/-- C2: the three-tier policy of `run_diagnosis`.  The candidate set is every
catalog rule except the sentinel kept iff its score is positive (definition
`candidates`); if any candidate reaches the 0.25 threshold the result is
exactly the thresholded subset sorted by score descending; otherwise, if
candidates exist, the result is the top 3 of the full candidate set by score
descending.  The sort is a permutation, sorted by score descending, and
stable: elements of equal score keep their original (catalog) order. -/
theorem run_diagnosis_three_tier (facts : Facts) :
    ((∃ m ∈ candidates facts, SCORE_THRESHOLD ≤ m.score) →
      run_diagnosis facts =
        sortDesc ((candidates facts).filter (fun m => SCORE_THRESHOLD ≤ m.score))) ∧
    ((∀ m ∈ candidates facts, m.score < SCORE_THRESHOLD) → candidates facts ≠ [] →
      run_diagnosis facts = (sortDesc (candidates facts)).take 3) ∧
    (∀ l : List Diag, (sortDesc l).Perm l ∧
      (sortDesc l).Sorted (fun a b => b.score ≤ a.score) ∧
      (∀ s : Rat, (sortDesc l).filter (fun m => m.score = s) =
        l.filter (fun m => m.score = s))) := by
  refine ⟨?_, ?_, fun l => ⟨sortDesc_perm l, sortDesc_sorted l, fun s => sortDesc_filter_score l s⟩⟩
  · intro h
    have habove : aboveOf RULES facts ≠ [] := by
      unfold aboveOf
      rw [ne_eq, List.filter_eq_nil_iff]
      push_neg
      obtain ⟨m, hm, hs⟩ := h
      exact ⟨m, hm, by simpa using hs⟩
    unfold run_diagnosis runDiagnosisWith
    rw [if_pos habove]
    rfl
  · intro hall hne
    have habove : aboveOf RULES facts = [] := by
      unfold aboveOf
      rw [List.filter_eq_nil_iff]
      intro m hm
      simpa using not_le.mpr (hall m hm)
    unfold run_diagnosis runDiagnosisWith
    rw [if_neg (by simp [habove]), if_pos (show matchesOf RULES facts ≠ [] from hne)]
    rfl

/-- Witness for C2 on the fact mapping of the latency smoke test: a candidate
reaches the threshold, so the result is the thresholded subset sorted. -/
theorem run_diagnosis_three_tier_wit :
    run_diagnosis [("ping_latency", PyVal.num 250)] =
      sortDesc ((candidates [("ping_latency", PyVal.num 250)]).filter
        (fun m => SCORE_THRESHOLD ≤ m.score)) :=
  (run_diagnosis_three_tier [("ping_latency", PyVal.num 250)]).1 (by decide)

/-! Lemmas about `evaluate_rule`. -/

/-- The weight the engine derives for one condition
(`float(c.get('weight', 1.0))`), defaulting to 0 in the impossible case where
the coercion fails (callers use it only under a successful evaluation). -/
def condWeightD (c : Cond) : Rat :=
  (pyFloat (c.weight.getD (PyVal.num 1))).getD 0

theorem evalConds_ok (facts : Facts) (cs : List Cond) (tw mw : Rat)
    (ms us : List Cond) (h : evalConds facts cs = .ok (tw, mw, ms, us)) :
    tw = (cs.map condWeightD).sum ∧
    mw = ((cs.filter (fun c => check_condition facts c)).map condWeightD).sum := by
  induction cs generalizing tw mw ms us with
  | nil =>
    unfold evalConds at h
    injection h with h
    injection h with h1 h
    injection h with h2 h
    simp [← h1, ← h2]
  | cons c cs ih =>
    unfold evalConds at h
    cases hw : pyFloat (c.weight.getD (PyVal.num 1)) with
    | none => rw [hw] at h; exact absurd h (by simp)
    | some w =>
      rw [hw] at h
      cases hec : evalConds facts cs with
      | error e => rw [hec] at h; exact absurd h (by simp)
      | ok v =>
        obtain ⟨tw', mw', ms', us'⟩ := v
        rw [hec] at h
        dsimp only at h
        obtain ⟨h1, h2⟩ := ih tw' mw' ms' us' hec
        by_cases hchk : check_condition facts c
        · rw [if_pos (by simp [hchk])] at h
          injection h with h
          injection h with ha h
          injection h with hb h
          simp [← ha, ← hb, h1, h2, List.filter_cons, hchk, condWeightD, hw]
        · rw [if_neg (by simp [hchk])] at h
          injection h with h
          injection h with ha h
          injection h with hb h
          simp [← ha, ← hb, h1, h2, List.filter_cons, hchk, condWeightD, hw]

/-- When the condition loop succeeds, `evaluate_rule` returns exactly this
record (the body of the Python function, spelled out). -/
theorem evaluate_rule_ok (rule : Rule) (facts : Facts) (tw mw : Rat)
    (ms us : List Cond) (h : evalConds facts rule.conditions = .ok (tw, mw, ms, us)) :
    evaluate_rule rule facts = .ok
      { matched_conditions := ms, unmatched_conditions := us,
        total_weight := tw, matched_weight := mw,
        match_rat := if rule.not_conditions.any (fun c => check_condition facts c) then 0
          else if tw = 0 then 0 else mw / tw,
        confidence := normalize_confidence (rule.confidence.getD (PyVal.num (1/2))),
        score := normalize_confidence (rule.confidence.getD (PyVal.num (1/2))) *
          (if rule.not_conditions.any (fun c => check_condition facts c) then 0
            else if tw = 0 then 0 else mw / tw),
        negation_triggered := rule.not_conditions.any (fun c => check_condition facts c) } := by
  unfold evaluate_rule
  rw [h]

/-- C3: if any negated condition matches the facts, a successful
`evaluate_rule` reports `negation_triggered = true` and forces
`match_ratio = 0.0` and hence `score = 0.0`, regardless of the positive
conditions. -/
theorem evaluate_rule_negation_veto (rule : Rule) (facts : Facts) (res : EvalResult)
    (hok : evaluate_rule rule facts = .ok res)
    (hneg : ∃ c ∈ rule.not_conditions, check_condition facts c = true) :
    res.negation_triggered = true ∧ res.match_rat = 0 ∧ res.score = 0 := by
  unfold evaluate_rule at hok
  cases hec : evalConds facts rule.conditions with
  | error e => rw [hec] at hok; exact absurd hok (by simp)
  | ok v =>
    obtain ⟨tw, mw, ms, us⟩ := v
    rw [hec] at hok
    dsimp only at hok
    injection hok with hok
    have hn : rule.not_conditions.any (fun c => check_condition facts c) = true :=
      List.any_eq_true.mpr (by obtain ⟨c, hc, h⟩ := hneg; exact ⟨c, hc, h⟩)
    rw [← hok]
    refine ⟨hn, by simp [hn], by simp [hn]⟩

/-- Concrete input for the C3 witness: one positive condition that matches
and the same condition negated. -/
def w3Cond : Cond := { type := some "warm_reboot", op := "==", value := PyVal.bool true }

def w3Rule : Rule :=
  { id := 7, name := "w3", confidence := some (PyVal.num (9/10)),
    conditions := [w3Cond], not_conditions := [w3Cond] }

def w3Facts : Facts := [("warm_reboot", PyVal.bool true)]

def w3Res : EvalResult :=
  { matched_conditions := [w3Cond], unmatched_conditions := [],
    total_weight := 1, matched_weight := 1, match_rat := 0,
    confidence := 9/10, score := 0, negation_triggered := true }

/-- Witness for C3: full positive match plus one negation hit gives score 0. -/
theorem evaluate_rule_negation_veto_wit :
    evaluate_rule w3Rule w3Facts = .ok w3Res ∧
    w3Res.negation_triggered = true ∧ w3Res.match_rat = 0 ∧ w3Res.score = 0 := by
  have hok : evaluate_rule w3Rule w3Facts = .ok w3Res := by rfl
  exact ⟨hok, evaluate_rule_negation_veto w3Rule w3Facts w3Res hok
    ⟨w3Cond, by decide, by decide⟩⟩

/-- Concrete input refuting C4 as stated: one positive condition that matches
and the same condition negated, so total_weight = matched_weight = 1 but the
negation veto forces match_ratio to 0 instead of 1/1. -/
def c4Cond : Cond := { type := some "fan_noise", op := "==", value := PyVal.num 1 }

def c4Rule : Rule :=
  { id := 4, name := "c4", conditions := [c4Cond], not_conditions := [c4Cond] }

def c4Facts : Facts := [("fan_noise", PyVal.num 1)]

/-- Counterexample to C4 as stated: `evaluate_rule` returns
total_weight = 1 ≠ 0 and matched_weight = 1, yet match_ratio = 0, which is
not matched_weight / total_weight = 1/1 (the negation veto, which the claim
omits, overrides the quotient). -/
theorem evaluate_rule_ratio_claim_cex :
    (evaluate_rule c4Rule c4Facts).toOption.map
        (fun r => (r.total_weight, r.matched_weight, r.match_rat)) = some (1, 1, 0) ∧
    (1 : Rat) ≠ 0 ∧ (0 : Rat) ≠ 1 / 1 := by decide

/-- C4 (amended): a successful `evaluate_rule` reports total_weight as the
sum of the conditions' weights (default 1.0), matched_weight as the sum over
the conditions that evaluate true, and — provided no negated condition
matched — match_ratio = matched_weight / total_weight, or 0.0 when
total_weight = 0; a zero total weight (in particular a rule with no
conditions) always gives score 0.0. -/
theorem evaluate_rule_weighted_ratio (rule : Rule) (facts : Facts) (res : EvalResult)
    (hok : evaluate_rule rule facts = .ok res) :
    res.total_weight = (rule.conditions.map condWeightD).sum ∧
    res.matched_weight =
      ((rule.conditions.filter (fun c => check_condition facts c)).map condWeightD).sum ∧
    (res.negation_triggered = false →
      res.match_rat =
        if res.total_weight = 0 then 0 else res.matched_weight / res.total_weight) ∧
    (res.total_weight = 0 → res.score = 0) ∧
    (rule.conditions = [] → res.score = 0) := by
  unfold evaluate_rule at hok
  cases hec : evalConds facts rule.conditions with
  | error e => rw [hec] at hok; exact absurd hok (by simp)
  | ok v =>
    obtain ⟨tw, mw, ms, us⟩ := v
    rw [hec] at hok
    dsimp only at hok
    injection hok with hok
    obtain ⟨h1, h2⟩ := evalConds_ok facts rule.conditions tw mw ms us hec
    rw [← hok]
    refine ⟨h1, h2, ?_, ?_, ?_⟩
    · intro hneg
      simp only at hneg
      simp [hneg]
    · intro htw
      simp only at htw
      by_cases hn : rule.not_conditions.any (fun c => check_condition facts c)
      · simp [hn]
      · simp [hn, htw]
    · intro hcs
      rw [hcs] at hec
      unfold evalConds at hec
      injection hec with hec
      injection hec with htw hec
      by_cases hn : rule.not_conditions.any (fun c => check_condition facts c)
      · simp [hn]
      · simp [hn, ← htw]

/-- Concrete input for the C4 witness: two unit-weight conditions, one
matching, no negations. -/
def w4CondA : Cond := { type := some "cpu_temp", op := ">", value := PyVal.num 85 }

def w4CondB : Cond := { type := some "cpu_temp", op := "<", value := PyVal.num 20 }

def w4Rule : Rule :=
  { id := 5, name := "w4", confidence := some (PyVal.num (4/5)),
    conditions := [w4CondA, w4CondB] }

def w4Facts : Facts := [("cpu_temp", PyVal.num 90)]

def w4Res : EvalResult :=
  { matched_conditions := [w4CondA], unmatched_conditions := [w4CondB],
    total_weight := 2, matched_weight := 1, match_rat := 1/2,
    confidence := 4/5, score := 4/5 * (1/2), negation_triggered := false }

/-- Witness for C4 (amended) at a concrete rule: weights 1+1, one match,
ratio 1/2. -/
theorem evaluate_rule_weighted_ratio_wit :
    evaluate_rule w4Rule w4Facts = .ok w4Res ∧
    w4Res.total_weight = (w4Rule.conditions.map condWeightD).sum ∧
    w4Res.matched_weight =
      ((w4Rule.conditions.filter (fun c => check_condition w4Facts c)).map condWeightD).sum ∧
    (w4Res.negation_triggered = false →
      w4Res.match_rat =
        if w4Res.total_weight = 0 then 0 else w4Res.matched_weight / w4Res.total_weight) := by
  have hok : evaluate_rule w4Rule w4Facts = .ok w4Res := by rfl
  have h := evaluate_rule_weighted_ratio w4Rule w4Facts w4Res hok
  exact ⟨hok, h.1, h.2.1, h.2.2.1⟩

/-- Concrete input refuting C6 as stated: the fact value is the number 1,
not a boolean, yet `is_true` evaluates true (the source tests `bool(a) is
True`, i.e. truthiness, not boolean identity). -/
def c6Cond : Cond := { type := some "reconnect_count", op := "is_true", value := PyVal.none }

def c6Facts : Facts := [("reconnect_count", PyVal.num 1)]

/-- Counterexample to C6 as stated: with fact value the number 1 (not the
boolean true), the `is_true` operator still evaluates true. -/
theorem is_true_nonbool_cex :
    check_condition c6Facts c6Cond = true ∧ PyVal.num 1 ≠ PyVal.bool true := by decide

/-- C6 (amended): when the fact is present, `is_true` evaluates true iff the
fact value — after the numeric-string coercion against the comparand — is
truthy under Python `bool()` (true boolean, nonzero number, non-empty
string), and `is_false` evaluates true iff it is falsy; so the number 1
satisfies `is_true`, not neither operator. -/
theorem check_is_true_truthy (facts : Facts) (c : Cond) (t : String) (v : PyVal)
    (ht : c.type = some t) (hv : facts.lookup t = some v) :
    (c.op = "is_true" → check_condition facts c = pyBool (coerceNumeric v c.value)) ∧
    (c.op = "is_false" → check_condition facts c = !pyBool (coerceNumeric v c.value)) := by
  unfold check_condition
  rw [ht]
  dsimp only
  rw [hv]
  constructor <;> intro hop <;> rw [hop] <;> rfl

/-- Witness for C6 (amended): fact value 2 (a number) satisfies `is_true`. -/
theorem check_is_true_truthy_wit :
    check_condition [("usb_detected", PyVal.num 2)]
        { type := some "usb_detected", op := "is_true", value := PyVal.none } =
      pyBool (coerceNumeric (PyVal.num 2) PyVal.none) :=
  (check_is_true_truthy [("usb_detected", PyVal.num 2)]
    { type := some "usb_detected", op := "is_true", value := PyVal.none }
    "usb_detected" (PyVal.num 2) rfl (by decide)).1 rfl

/-- C8: the condition evaluator is total and never propagates an error: it
returns false when the fact name is missing from the facts (or the condition
has no fact name at all), false when the operator is not in the supported
operator table, and false when the comparison itself raises (modelled:
`opApply` returns `Option.none`). -/
theorem check_condition_never_raises (facts : Facts) (c : Cond) :
    ((c.type = Option.none ∨ ∃ t, c.type = some t ∧ facts.lookup t = Option.none) →
      check_condition facts c = false) ∧
    (opSupported c.op = false → check_condition facts c = false) ∧
    (∀ t v, c.type = some t → facts.lookup t = some v →
      opApply c.op (coerceNumeric v c.value) c.value = Option.none →
      check_condition facts c = false) := by
  refine ⟨?_, ?_, ?_⟩
  · rintro (h | ⟨t, ht, hl⟩)
    · unfold check_condition
      rw [h]
    · unfold check_condition
      rw [ht]
      dsimp only
      rw [hl]
  · intro hop
    unfold check_condition
    cases hct : c.type with
    | none => rfl
    | some t =>
      dsimp only
      cases hl : facts.lookup t with
      | none => rfl
      | some v =>
        dsimp only
        rw [if_neg (by simp [hop])]
  · intro t v ht hv hnone
    unfold check_condition
    rw [ht]
    dsimp only
    rw [hv]
    dsimp only
    by_cases hs : opSupported c.op
    · rw [if_pos hs, hnone]
      rfl
    · rw [if_neg hs]

/-- Witness for C8: a missing fact, an unknown operator, and a raising
comparison (string vs `None` under `<`) all yield false. -/
theorem check_condition_never_raises_wit :
    check_condition [] { type := some "ping_latency", op := "==", value := PyVal.num 1 } = false ∧
    check_condition [("x", PyVal.num 1)] { type := some "x", op := "almost", value := PyVal.num 1 } = false ∧
    check_condition [("x", PyVal.str "a")] { type := some "x", op := "<", value := PyVal.none } = false :=
  ⟨(check_condition_never_raises [] _).1 (Or.inr ⟨"ping_latency", rfl, by decide⟩),
   (check_condition_never_raises [("x", PyVal.num 1)] _).2.1 (by decide),
   (check_condition_never_raises [("x", PyVal.str "a")] _).2.2 "x" (PyVal.str "a") rfl
     (by decide) (by decide)⟩

/-- A condition whose weight is not float-coercible (`float(None)` raises). -/
def badWeightCond : Cond :=
  { type := some "x", op := "==", value := PyVal.num 1, weight := some PyVal.none }

/-- A rule whose evaluation raises in the weight coercion. -/
def badWeightRule : Rule :=
  { id := 1, name := "bad weight", conditions := [badWeightCond] }

/-- C9: `evaluate_rule` can raise (here: a weight that is not coercible to
float), and the scoring loop of `run_diagnosis` wraps each rule's evaluation
in an exception handler: a rule whose evaluation raises is silently dropped
and the remaining rules are processed unchanged. -/
theorem run_diagnosis_skips_raising_rules (pre post : List Rule) (r : Rule)
    (facts : Facts) (hid : ¬ r.id = 100)
    (herr : evaluate_rule r facts = .error ()) :
    runDiagnosisWith (pre ++ r :: post) facts = runDiagnosisWith (pre ++ post) facts ∧
    evaluate_rule badWeightRule [] = .error () := by
  refine ⟨?_, by rfl⟩
  have hm : matchesOf (pre ++ r :: post) facts = matchesOf (pre ++ post) facts := by
    unfold matchesOf
    rw [List.filterMap_append, List.filterMap_append]
    have hr : evalMatch facts r = Option.none := by
      unfold evalMatch
      rw [if_neg hid, herr]
    rw [List.filterMap_cons_none hr]
  have hf : (pre ++ r :: post).find? (fun x => x.id == 100) =
      (pre ++ post).find? (fun x => x.id == 100) := by
    rw [List.find?_append, List.find?_append]
    rw [List.find?_cons_of_neg _ (by simpa using hid)]
  unfold runDiagnosisWith aboveOf
  rw [hm, hf]

/-- Witness for C9: dropping the raising rule from a singleton catalog gives
the same outcome as the empty catalog. -/
theorem run_diagnosis_skips_raising_rules_wit :
    runDiagnosisWith ([] ++ badWeightRule :: []) [] = runDiagnosisWith ([] ++ []) [] ∧
    evaluate_rule badWeightRule [] = .error () :=
  run_diagnosis_skips_raising_rules [] [] badWeightRule [] (by decide) (by rfl)

/-! `support_app/rule_import.py`: catalog merge. -/

/-- Python dict assignment `d[k] = v` on a dict modelled as an association
list: update in place if the key is present (keeping its position), else
append at the end. -/
def pyDictInsert (m : List (Int × Rule)) (k : Int) (v : Rule) : List (Int × Rule) :=
  match m with
  | [] => [(k, v)]
  | (k', v') :: rest => if k' = k then (k, v) :: rest else (k', v') :: pyDictInsert rest k v

/-- Python dict lookup `d[k]` (first — and with unique keys only — binding). -/
def lookupA (i : Int) : List (Int × Rule) → Option Rule
  | [] => Option.none
  | (k, v) :: rest => if k = i then some v else lookupA i rest

/-- The last rule in the list whose id is `i`, if any (the last-write-wins
semantics of keying a list of rules by id). -/
def lastWithId : List Rule → Int → Option Rule
  | [], _ => Option.none
  | r :: rest, i =>
    match lastWithId rest i with
    | some x => some x
    | Option.none => if r.id = i then some r else Option.none

/-- Insertion into an ascending list of keys (for Python's `sorted`). -/
def insertAsc (x : Int) : List Int → List Int
  | [] => [x]
  | y :: ys => if x ≤ y then x :: y :: ys else y :: insertAsc x ys

/-- Python's `sorted` on the dict's keys (ascending). -/
def sortInts : List Int → List Int
  | [] => []
  | x :: xs => insertAsc x (sortInts xs)

/-- `rule_import.merge_rules(existing, new)`: key `existing` by id, overwrite
or insert every incoming rule by its id, return `[by_id[k] for k in
sorted(by_id.keys())]`.  (The Python guard skipping non-dict or id-less
incoming entries is vacuous here: every modelled rule is a dict with an
id.) -/
def mergeMap (existing incoming : List Rule) : List (Int × Rule) :=
  incoming.foldl (fun m r => pyDictInsert m r.id r)
    (existing.foldl (fun m r => pyDictInsert m r.id r) [])

def merge_rules (existing incoming : List Rule) : List Rule :=
  (sortInts ((mergeMap existing incoming).map Prod.fst)).filterMap
    (fun k => lookupA k (mergeMap existing incoming))

theorem lookupA_pyDictInsert (m : List (Int × Rule)) (k i : Int) (v : Rule) :
    lookupA i (pyDictInsert m k v) = if k = i then some v else lookupA i m := by
  induction m with
  | nil => rfl
  | cons p rest ih =>
    obtain ⟨k', v'⟩ := p
    by_cases hk : k' = k
    · subst hk
      by_cases hi : k' = i <;> simp [pyDictInsert, lookupA, hi]
    · by_cases hi2 : k' = i
      · have hki : ¬ k = i := fun h => hk (hi2.trans h.symm)
        simp [pyDictInsert, lookupA, hk, hi2, hki, Ne.symm hki]
      · simp [pyDictInsert, lookupA, hk, hi2, ih]

theorem mem_keys_pyDictInsert (m : List (Int × Rule)) (k a : Int) (v : Rule) :
    a ∈ (pyDictInsert m k v).map Prod.fst ↔ a = k ∨ a ∈ m.map Prod.fst := by
  induction m with
  | nil => simp [pyDictInsert]
  | cons p rest ih =>
    obtain ⟨k', v'⟩ := p
    by_cases hk : k' = k
    · subst hk
      simp [pyDictInsert]
    · simp [pyDictInsert, hk, ih]
      tauto

theorem nodup_keys_pyDictInsert (m : List (Int × Rule)) (k : Int) (v : Rule)
    (h : (m.map Prod.fst).Nodup) : ((pyDictInsert m k v).map Prod.fst).Nodup := by
  induction m with
  | nil => simp [pyDictInsert]
  | cons p rest ih =>
    obtain ⟨k', v'⟩ := p
    simp only [List.map_cons, List.nodup_cons] at h
    by_cases hk : k' = k
    · subst hk
      rw [show pyDictInsert ((k', v') :: rest) k' v = (k', v) :: rest by
        simp [pyDictInsert]]
      simp only [List.map_cons, List.nodup_cons]
      exact h
    · rw [show pyDictInsert ((k', v') :: rest) k v =
          (k', v') :: pyDictInsert rest k v by simp [pyDictInsert, hk]]
      simp only [List.map_cons, List.nodup_cons]
      refine ⟨?_, ih h.2⟩
      rw [mem_keys_pyDictInsert]
      rintro (h' | h')
      · exact hk h'
      · exact h.1 h'

theorem mem_pyDictInsert (m : List (Int × Rule)) (k : Int) (v : Rule) (p : Int × Rule)
    (hp : p ∈ pyDictInsert m k v) : p = (k, v) ∨ p ∈ m := by
  induction m with
  | nil => simpa [pyDictInsert] using hp
  | cons q rest ih =>
    obtain ⟨k', v'⟩ := q
    by_cases hk : k' = k
    · subst hk
      rw [show pyDictInsert ((k', v') :: rest) k' v = (k', v) :: rest by
        simp [pyDictInsert]] at hp
      rcases List.mem_cons.mp hp with h | h
      · exact Or.inl h
      · exact Or.inr (List.mem_cons_of_mem _ h)
    · rw [show pyDictInsert ((k', v') :: rest) k v = (k', v') :: pyDictInsert rest k v by
        simp [pyDictInsert, hk]] at hp
      rcases List.mem_cons.mp hp with h | h
      · exact Or.inr (h ▸ List.mem_cons_self _ _)
      · rcases ih h with h' | h'
        · exact Or.inl h'
        · exact Or.inr (List.mem_cons_of_mem _ h')

theorem lookupA_foldl (l : List Rule) (m : List (Int × Rule)) (i : Int) :
    lookupA i (l.foldl (fun m r => pyDictInsert m r.id r) m) =
      match lastWithId l i with
      | some x => some x
      | Option.none => lookupA i m := by
  induction l generalizing m with
  | nil => rfl
  | cons r rest ih =>
    show lookupA i (rest.foldl _ (pyDictInsert m r.id r)) = _
    rw [ih]
    cases h : lastWithId rest i with
    | some x => rw [show lastWithId (r :: rest) i = some x by unfold lastWithId; rw [h]]
    | none =>
      rw [show lastWithId (r :: rest) i =
            (if r.id = i then some r else Option.none) by unfold lastWithId; rw [h]]
      rw [lookupA_pyDictInsert]
      by_cases hi : r.id = i <;> simp [hi]

theorem keysOk_foldl (l : List Rule) (m : List (Int × Rule))
    (h : ∀ p ∈ m, (p.2).id = p.1) :
    ∀ p ∈ l.foldl (fun m r => pyDictInsert m r.id r) m, (p.2).id = p.1 := by
  induction l generalizing m with
  | nil => exact h
  | cons r rest ih =>
    refine ih _ fun p hp => ?_
    rcases mem_pyDictInsert m r.id r p hp with h' | h'
    · rw [h']
    · exact h p h'

theorem nodup_keys_foldl (l : List Rule) (m : List (Int × Rule))
    (h : (m.map Prod.fst).Nodup) :
    ((l.foldl (fun m r => pyDictInsert m r.id r) m).map Prod.fst).Nodup := by
  induction l generalizing m with
  | nil => exact h
  | cons r rest ih => exact ih _ (nodup_keys_pyDictInsert m r.id r h)

theorem lookupA_mem (m : List (Int × Rule)) (i : Int) (v : Rule)
    (h : lookupA i m = some v) : (i, v) ∈ m := by
  induction m with
  | nil => exact absurd h (by simp [lookupA])
  | cons p rest ih =>
    obtain ⟨k, v'⟩ := p
    unfold lookupA at h
    by_cases hk : k = i
    · rw [if_pos hk] at h
      injection h with h
      rw [← hk, ← h]
      exact List.mem_cons_self _ _
    · rw [if_neg hk] at h
      exact List.mem_cons_of_mem _ (ih h)

theorem lookupA_isSome_of_mem_keys (m : List (Int × Rule)) (i : Int)
    (h : i ∈ m.map Prod.fst) : (lookupA i m).isSome := by
  induction m with
  | nil => simp at h
  | cons p rest ih =>
    obtain ⟨k, v⟩ := p
    unfold lookupA
    by_cases hk : k = i
    · rw [if_pos hk]; rfl
    · rw [if_neg hk]
      apply ih
      simp at h
      rcases h with h | h
      · exact absurd h.symm hk
      · simpa using h

theorem lastWithId_cons (r : Rule) (rest : List Rule) (i : Int) :
    lastWithId (r :: rest) i =
      match lastWithId rest i with
      | some x => some x
      | Option.none => if r.id = i then some r else Option.none := rfl

theorem lastWithId_append (l1 l2 : List Rule) (i : Int) :
    lastWithId (l1 ++ l2) i =
      match lastWithId l2 i with
      | some x => some x
      | Option.none => lastWithId l1 i := by
  induction l1 with
  | nil =>
    show lastWithId l2 i = _
    cases h : lastWithId l2 i <;> rfl
  | cons r rest ih =>
    rw [List.cons_append, lastWithId_cons, ih, lastWithId_cons]
    cases h : lastWithId l2 i with
    | some x => rfl
    | none => rfl

theorem insertAsc_perm (x : Int) (l : List Int) : (insertAsc x l).Perm (x :: l) := by
  induction l with
  | nil => simp [insertAsc]
  | cons y ys ih =>
    unfold insertAsc
    by_cases h : x ≤ y
    · rw [if_pos h]
    · rw [if_neg h]
      exact (ih.cons y).trans (List.Perm.swap x y ys)

theorem sortInts_perm (l : List Int) : (sortInts l).Perm l := by
  induction l with
  | nil => simp [sortInts]
  | cons x xs ih => exact (insertAsc_perm x (sortInts xs)).trans (ih.cons x)

theorem insertAsc_sorted (x : Int) (l : List Int)
    (h : List.Pairwise (· ≤ ·) l) : List.Pairwise (· ≤ ·) (insertAsc x l) := by
  induction l with
  | nil => simp [insertAsc]
  | cons y ys ih =>
    rw [List.pairwise_cons] at h
    unfold insertAsc
    by_cases hxy : x ≤ y
    · rw [if_pos hxy, List.pairwise_cons]
      refine ⟨fun b hb => ?_, List.pairwise_cons.mpr h⟩
      rcases List.mem_cons.mp hb with rfl | hb
      · exact hxy
      · exact le_trans hxy (h.1 b hb)
    · rw [if_neg hxy, List.pairwise_cons]
      push_neg at hxy
      refine ⟨fun b hb => ?_, ih h.2⟩
      rcases List.mem_cons.mp ((insertAsc_perm x ys).mem_iff.mp hb) with h' | h'
      · exact le_of_lt (h' ▸ hxy)
      · exact h.1 b h'

theorem sortInts_sorted (l : List Int) : List.Pairwise (· ≤ ·) (sortInts l) := by
  induction l with
  | nil => simp [sortInts]
  | cons x xs ih => exact insertAsc_sorted x (sortInts xs) ih

theorem filterMap_lookup_ids (ks : List Int) (m : List (Int × Rule))
    (hvals : ∀ p ∈ m, (p.2).id = p.1) (hks : ∀ k ∈ ks, k ∈ m.map Prod.fst) :
    (ks.filterMap (fun k => lookupA k m)).map (fun r => r.id) = ks := by
  induction ks with
  | nil => rfl
  | cons k ks ih =>
    have hk := hks k (List.mem_cons_self _ _)
    obtain ⟨v, hv⟩ := Option.isSome_iff_exists.mp (lookupA_isSome_of_mem_keys m k hk)
    rw [List.filterMap_cons, hv]
    dsimp only
    rw [List.map_cons, ih fun a ha => hks a (List.mem_cons_of_mem _ ha)]
    have : v.id = k := hvals (k, v) (lookupA_mem m k v hv)
    rw [this]

/-- C5: `merge_rules` keys the existing rules by id, then overwrites/inserts
every incoming rule by its id — an incoming rule with an existing id fully
replaces it — and returns the catalog sorted strictly ascending by id.
Membership in the result is exactly: the last rule with that id in
`existing ++ incoming` (incoming wins over existing; within each list the
later entry wins). -/
theorem merge_rules_spec (existing incoming : List Rule) :
    List.Pairwise (fun a b : Rule => a.id < b.id) (merge_rules existing incoming) ∧
    ∀ r : Rule, r ∈ merge_rules existing incoming ↔
      lastWithId (existing ++ incoming) r.id = some r := by
  have hvals : ∀ p ∈ mergeMap existing incoming, (p.2).id = p.1 :=
    keysOk_foldl incoming _ (keysOk_foldl existing [] (by simp))
  have hnodup : ((mergeMap existing incoming).map Prod.fst).Nodup :=
    nodup_keys_foldl incoming _ (nodup_keys_foldl existing [] (by simp))
  have hlook : ∀ i, lookupA i (mergeMap existing incoming) =
      lastWithId (existing ++ incoming) i := by
    intro i
    unfold mergeMap
    rw [lookupA_foldl, lookupA_foldl, lastWithId_append]
    cases h2 : lastWithId incoming i with
    | some x => rfl
    | none => cases h1 : lastWithId existing i <;> rfl
  constructor
  · have hids : (merge_rules existing incoming).map (fun r => r.id) =
        sortInts ((mergeMap existing incoming).map Prod.fst) := by
      unfold merge_rules
      exact filterMap_lookup_ids _ _ hvals
        (fun k hk => (sortInts_perm _).mem_iff.mp hk)
    have hsorted := sortInts_sorted ((mergeMap existing incoming).map Prod.fst)
    have hnd : (sortInts ((mergeMap existing incoming).map Prod.fst)).Nodup :=
      ((sortInts_perm _).nodup_iff).mpr hnodup
    have hlt : List.Pairwise (· < ·)
        (sortInts ((mergeMap existing incoming).map Prod.fst)) :=
      (hsorted.and hnd).imp fun h => lt_of_le_of_ne h.1 h.2
    rw [← hids] at hlt
    exact List.pairwise_map.mp hlt
  · intro r
    rw [← hlook r.id]
    constructor
    · intro hr
      obtain ⟨k, _, hkv⟩ := List.mem_filterMap.mp hr
      have hid : r.id = k := hvals (k, r) (lookupA_mem _ k r hkv)
      rw [hid]
      exact hkv
    · intro hr
      apply List.mem_filterMap.mpr
      refine ⟨r.id, ?_, hr⟩
      have hm : (r.id, r) ∈ mergeMap existing incoming := lookupA_mem _ _ _ hr
      have : r.id ∈ (mergeMap existing incoming).map Prod.fst :=
        List.mem_map.mpr ⟨(r.id, r), hm, rfl⟩
      exact (sortInts_perm _).mem_iff.mpr this

/-! `rule_import.validate_rules`, modelled with an explicit store of
condition dictionaries so that the in-place mutation (and sharing of the
condition dict objects between input and output) the Python code performs is
observable.  Issue messages are abstracted into an inductive type (the Python
code emits human-readable f-strings). -/

/-- `rule_import._normalize_confidence_raw(c)`: `None` (modelled
`Option.none`) for non-coercible input and for negative numbers; unchanged in
[0, 1]; percentage in (1, 100]; clamped to 1.0 above 100. -/
def normalize_confidence_raw (c : PyVal) : Option Rat :=
  match pyFloat c with
  | Option.none => Option.none
  | some cf =>
    if 0 ≤ cf ∧ cf ≤ 1 then some cf
    else if 1 < cf ∧ cf ≤ 100 then some (cf / 100)
    else if 100 < cf then some 1
    else Option.none

/-- A condition dictionary (Python dict, insertion-ordered). -/
abbrev CondDict := List (String × PyVal)

/-- The heap of condition dict objects; a condition reference is an index. -/
abbrev Store := List CondDict

/-- Python dict read `d.get(k)`. -/
def dictGet (d : CondDict) (k : String) : Option PyVal :=
  match d with
  | [] => Option.none
  | (k', v) :: rest => if k' = k then some v else dictGet rest k

/-- Python dict write `d[k] = v`: update in place, else append. -/
def dictSet (d : CondDict) (k : String) (v : PyVal) : CondDict :=
  match d with
  | [] => [(k, v)]
  | (k', v') :: rest => if k' = k then (k, v) :: rest else (k', v') :: dictSet rest k v

/-- Python `k in d`. -/
def dictHas (d : CondDict) (k : String) : Bool :=
  (dictGet d k).isSome

/-- The validation issues `validate_rules` can record, in the order the
source emits them (message text abstracted). -/
inductive Issue where
  | notDict (i : Nat)
  | missingId (i : Nat)
  | dupId (rid : Int)
  | missingName (rid : Int)
  | invalidConfidence (rid : Int)
  | condsNone (rid : Int)
  | condsNotList (rid : Int)
  | condNotDict (rid : Int) (j : Nat)
  | condMissingType (rid : Int) (j : Nat)
  | condMissingOp (rid : Int) (j : Nat)
  | condInvalidWeight (rid : Int) (j : Nat)
deriving DecidableEq

/-- An entry of a rule's `conditions` list: a condition dict object
(reference into the store) or something that is not a dict. -/
inductive CondItem where
  | notDictC
  | refC (n : Nat)
deriving DecidableEq

/-- The raw `conditions` field of an input rule: absent, `None`, not a list,
or a list of condition entries. -/
inductive CondsField where
  | absent
  | noneF
  | notList
  | listF (items : List CondItem)
deriving DecidableEq

/-- An input rule dict as `validate_rules` reads it (`r.get(...)` per key). -/
structure RuleIn where
  id : Option Int := Option.none
  name : Option PyVal := Option.none
  confidence : Option PyVal := Option.none
  conds_raw : CondsField := CondsField.absent
deriving DecidableEq

/-- An entry of the input rules list: a rule dict or a non-dict value. -/
inductive RuleEntry where
  | notDict
  | ruleE (r : RuleIn)
deriving DecidableEq

/-- A normalized output rule (`nr = dict(r)` with `confidence` and
`conditions` overwritten; the conditions list holds the same objects). -/
structure RuleOut where
  id : Int
  name : Option PyVal
  confidence : Rat
  conditions : List CondItem
deriving DecidableEq

/-- The op-default step of the per-condition loop: insert `'op': '=='` when
the key is missing (appended at the end, as Python dict insertion does). -/
def normOp (d : CondDict) : CondDict :=
  if dictHas d "op" then d else dictSet d "op" (PyVal.str "==")

/-- The weight-coercion step: `c['weight'] = float(c.get('weight', 1.0))`,
or 1.0 when the coercion raises. -/
def normWeight (d : CondDict) : CondDict :=
  match pyFloat ((dictGet d "weight").getD (PyVal.num 1)) with
  | some w => dictSet d "weight" (PyVal.num w)
  | Option.none => dictSet d "weight" (PyVal.num 1)

/-- The full in-place normalization of one condition dict. -/
def normCondDict (d : CondDict) : CondDict :=
  normWeight (normOp d)

/-- The body of the per-condition loop: the mutated dict plus the issues for
this condition, in source order (type, op, weight). -/
def processCond (rid : Int) (j : Nat) (d : CondDict) : CondDict × List Issue :=
  (normWeight (normOp d),
   (if dictHas d "type" then [] else [Issue.condMissingType rid j]) ++
     (if dictHas d "op" then [] else [Issue.condMissingOp rid j]) ++
     (match pyFloat ((dictGet (normOp d) "weight").getD (PyVal.num 1)) with
      | some _ => []
      | Option.none => [Issue.condInvalidWeight rid j]))

/-- The loop over a rule's condition entries, threading the store; `j` is the
running index (for issue messages); non-dict entries are skipped, dangling
references (impossible in Python) are skipped silently. -/
def processCondsAux (rid : Int) : Nat → Store → List CondItem → Store × List Issue
  | _, store, [] => (store, [])
  | j, store, CondItem.notDictC :: rest =>
    ((processCondsAux rid (j+1) store rest).1,
     Issue.condNotDict rid j :: (processCondsAux rid (j+1) store rest).2)
  | j, store, CondItem.refC n :: rest =>
    match store[n]? with
    | Option.none => processCondsAux rid (j+1) store rest
    | some d =>
      ((processCondsAux rid (j+1) (store.set n (processCond rid j d).1) rest).1,
       (processCond rid j d).2 ++
         (processCondsAux rid (j+1) (store.set n (processCond rid j d).1) rest).2)

/-- Python `if not name:` on `r.get('name')`. -/
def nameFalsy : Option PyVal → Bool
  | Option.none => true
  | some v => !pyBool v

/-- The conditions list after the absent/None/non-list coercions. -/
def condItems : CondsField → List CondItem
  | CondsField.listF items => items
  | _ => []

/-- The issues the absent/None/non-list coercions record. -/
def condFieldIssues (rid : Int) : CondsField → List Issue
  | CondsField.noneF => [Issue.condsNone rid]
  | CondsField.notList => [Issue.condsNotList rid]
  | _ => []

/-- Confidence normalization inside `validate_rules`: the normalized value
plus the issue when `_normalize_confidence_raw` returned `None`. -/
def normConfPair (rid : Int) (c : PyVal) : Rat × List Issue :=
  match normalize_confidence_raw c with
  | some v => (v, [])
  | Option.none => (1/2, [Issue.invalidConfidence rid])

/-- One iteration of the rule loop of `validate_rules`: non-dict entries and
entries without id are rejected; otherwise the rule is kept with normalized
confidence and its condition dicts are mutated in the store; issues are
emitted in source order (duplicate id, missing name, invalid confidence,
conditions coercion, per-condition). -/
def processRule (i : Nat) (seen : List Int) (store : Store) :
    RuleEntry → Store × List Int × Option RuleOut × List Issue
  | RuleEntry.notDict => (store, seen, Option.none, [Issue.notDict i])
  | RuleEntry.ruleE r =>
    match r.id with
    | Option.none => (store, seen, Option.none, [Issue.missingId i])
    | some rid =>
      ((processCondsAux rid 0 store (condItems r.conds_raw)).1,
       rid :: seen,
       some { id := rid, name := r.name,
              confidence := (normConfPair rid (r.confidence.getD (PyVal.num (1/2)))).1,
              conditions := condItems r.conds_raw },
       (if rid ∈ seen then [Issue.dupId rid] else []) ++
         (if nameFalsy r.name then [Issue.missingName rid] else []) ++
         (normConfPair rid (r.confidence.getD (PyVal.num (1/2)))).2 ++
         condFieldIssues rid r.conds_raw ++
         (processCondsAux rid 0 store (condItems r.conds_raw)).2)

/-- The rule loop of `validate_rules` (index, seen-ids set and store threaded
through). -/
def validate_rulesAux : Nat → List Int → Store → List RuleEntry → Store × List RuleOut × List Issue
  | _, _, store, [] => (store, [], [])
  | i, seen, store, e :: rest =>
    ((validate_rulesAux (i+1) (processRule i seen store e).2.1
        (processRule i seen store e).1 rest).1,
     (match (processRule i seen store e).2.2.1 with
      | some o => o :: (validate_rulesAux (i+1) (processRule i seen store e).2.1
          (processRule i seen store e).1 rest).2.1
      | Option.none => (validate_rulesAux (i+1) (processRule i seen store e).2.1
          (processRule i seen store e).1 rest).2.1),
     (processRule i seen store e).2.2.2 ++
       (validate_rulesAux (i+1) (processRule i seen store e).2.1
         (processRule i seen store e).1 rest).2.2)

/-- `rule_import.validate_rules(rules)`: returns the final store (the
condition dicts after in-place mutation), the kept normalized rules in input
order, and the issues. -/
def validate_rules (store : Store) (rules : List RuleEntry) :
    Store × List RuleOut × List Issue :=
  validate_rulesAux 0 [] store rules

theorem dictGet_dictSet_self (d : CondDict) (k : String) (v : PyVal) :
    dictGet (dictSet d k v) k = some v := by
  induction d with
  | nil => simp [dictGet, dictSet]
  | cons p rest ih =>
    obtain ⟨k', v'⟩ := p
    by_cases hk : k' = k
    · simp [dictGet, dictSet, hk]
    · simp [dictGet, dictSet, hk, ih]

theorem dictGet_dictSet_ne (d : CondDict) (k k' : String) (v : PyVal)
    (h : ¬ k = k') : dictGet (dictSet d k v) k' = dictGet d k' := by
  induction d with
  | nil => simp [dictGet, dictSet, h]
  | cons p rest ih =>
    obtain ⟨k0, v0⟩ := p
    by_cases hk : k0 = k
    · subst hk
      simp [dictGet, dictSet, h]
    · have h' : ¬ k' = k := fun hh => h hh.symm
      by_cases hk' : k0 = k'
      · simp [dictGet, dictSet, hk, hk', h']
      · simp [dictGet, dictSet, hk, hk', h', ih]

theorem dictSet_dictSet_self (d : CondDict) (k : String) (v w : PyVal) :
    dictSet (dictSet d k v) k w = dictSet d k w := by
  induction d with
  | nil => simp [dictSet]
  | cons p rest ih =>
    obtain ⟨k0, v0⟩ := p
    by_cases hk : k0 = k
    · simp [dictSet, hk]
    · simp [dictSet, hk, ih]

theorem processCond_fst (rid : Int) (j : Nat) (d : CondDict) :
    (processCond rid j d).1 = normCondDict d := rfl

theorem dictHas_normOp_op (d : CondDict) : dictHas (normOp d) "op" = true := by
  unfold normOp
  by_cases h : dictHas d "op"
  · rw [if_pos h]
    exact h
  · rw [if_neg h]
    unfold dictHas
    rw [dictGet_dictSet_self]
    rfl

theorem dictHas_normWeight_op (d : CondDict) :
    dictHas (normWeight d) "op" = dictHas d "op" := by
  unfold normWeight
  cases hw : pyFloat ((dictGet d "weight").getD (PyVal.num 1)) <;>
    · dsimp only
      unfold dictHas
      rw [dictGet_dictSet_ne d "weight" "op" _ (by decide)]

theorem normOp_of_has (d : CondDict) (h : dictHas d "op" = true) : normOp d = d := by
  unfold normOp
  rw [if_pos h]

theorem normWeight_idem (e : CondDict) : normWeight (normWeight e) = normWeight e := by
  unfold normWeight
  cases hw : pyFloat ((dictGet e "weight").getD (PyVal.num 1)) with
  | some w =>
    dsimp only
    rw [dictGet_dictSet_self]
    rw [show pyFloat ((some (PyVal.num w)).getD (PyVal.num 1)) = some w from rfl]
    dsimp only
    rw [dictSet_dictSet_self]
  | none =>
    dsimp only
    rw [dictGet_dictSet_self]
    rw [show pyFloat ((some (PyVal.num 1)).getD (PyVal.num 1)) = some 1 from rfl]
    dsimp only
    rw [dictSet_dictSet_self]

theorem normCondDict_idem (d : CondDict) :
    normCondDict (normCondDict d) = normCondDict d := by
  unfold normCondDict
  rw [normOp_of_has (normWeight (normOp d))
    (by rw [dictHas_normWeight_op]; exact dictHas_normOp_op d)]
  exact normWeight_idem (normOp d)

theorem processCondsAux_get_of_not_mem (rid : Int) (items : List CondItem) (n : Nat) :
    ∀ (j : Nat) (store : Store), CondItem.refC n ∉ items →
      ((processCondsAux rid j store items).1)[n]? = store[n]? := by
  induction items with
  | nil => intro j store _; rfl
  | cons it rest ih =>
    intro j store h
    have hrest : CondItem.refC n ∉ rest := fun hr => h (List.mem_cons_of_mem _ hr)
    cases it with
    | notDictC =>
      show ((processCondsAux rid (j+1) store rest).1)[n]? = _
      exact ih (j+1) store hrest
    | refC m =>
      have hmn : ¬ m = n := fun hh => h (hh ▸ List.mem_cons_self _ _)
      show ((processCondsAux rid j store (CondItem.refC m :: rest)).1)[n]? = _
      unfold processCondsAux
      cases hm : store[m]? with
      | none => exact ih (j+1) store hrest
      | some dm =>
        dsimp only
        rw [ih (j+1) _ hrest]
        exact List.getElem?_set_ne hmn

theorem processCondsAux_get_of_mem (rid : Int) (items : List CondItem) (n : Nat) :
    ∀ (j : Nat) (store : Store) (d : CondDict), CondItem.refC n ∈ items →
      store[n]? = some d →
      ((processCondsAux rid j store items).1)[n]? = some (normCondDict d) := by
  induction items with
  | nil => intro j store d h _; simp at h
  | cons it rest ih =>
    intro j store d h hd
    cases it with
    | notDictC =>
      have hrest : CondItem.refC n ∈ rest := by
        rcases List.mem_cons.mp h with h' | h'
        · exact absurd h' (by simp)
        · exact h'
      show ((processCondsAux rid (j+1) store rest).1)[n]? = _
      exact ih (j+1) store d hrest hd
    | refC m =>
      by_cases hmn : m = n
      · show ((processCondsAux rid j store (CondItem.refC m :: rest)).1)[n]? = _
        subst hmn
        unfold processCondsAux
        rw [hd]
        dsimp only
        have hlen : m < store.length := by
          rcases List.getElem?_eq_some.mp hd with ⟨hl, _⟩
          exact hl
        have hset : (store.set m (processCond rid j d).1)[m]? = some (normCondDict d) := by
          rw [processCond_fst]
          exact List.getElem?_set_self (by simpa using hlen)
        by_cases hrest : CondItem.refC m ∈ rest
        · rw [ih (j+1) _ (normCondDict d) hrest hset]
          rw [normCondDict_idem]
        · rw [processCondsAux_get_of_not_mem rid rest m (j+1) _ hrest]
          exact hset
      · have hrest : CondItem.refC n ∈ rest := by
          rcases List.mem_cons.mp h with h' | h'
          · injection h' with hh
            exact absurd hh.symm hmn
          · exact h'
        show ((processCondsAux rid j store (CondItem.refC m :: rest)).1)[n]? = _
        unfold processCondsAux
        cases hm : store[m]? with
        | none => exact ih (j+1) store d hrest hd
        | some dm =>
          dsimp only
          refine ih (j+1) _ d hrest ?_
          rw [List.getElem?_set_ne hmn]
          exact hd

theorem validate_rules_single (store : Store) (r : RuleIn) (rid : Int)
    (hid : r.id = some rid) :
    validate_rules store [RuleEntry.ruleE r] =
      ((processCondsAux rid 0 store (condItems r.conds_raw)).1,
       [{ id := rid, name := r.name,
          confidence := (normConfPair rid (r.confidence.getD (PyVal.num (1/2)))).1,
          conditions := condItems r.conds_raw }],
       (if nameFalsy r.name then [Issue.missingName rid] else []) ++
         (normConfPair rid (r.confidence.getD (PyVal.num (1/2)))).2 ++
         condFieldIssues rid r.conds_raw ++
         (processCondsAux rid 0 store (condItems r.conds_raw)).2) := by
  simp only [validate_rules, validate_rulesAux, processRule, hid]
  simp

/-- C10: `validate_rules` copies a kept rule only shallowly — the output
rule's conditions list is the very same list of condition dict objects
(references) as the input's — and it mutates those condition dicts in place
in the store: each referenced dict becomes `normCondDict` of its old value
(missing `'op'` inserted as `'=='`, `'weight'` overwritten with its float
coercion or 1.0), while unreferenced store entries are untouched. -/
theorem validate_rules_shallow_mutation (store : Store) (r : RuleIn) (rid : Int)
    (items : List CondItem) (hid : r.id = some rid)
    (hconds : r.conds_raw = CondsField.listF items) :
    (∃ o : RuleOut, (validate_rules store [RuleEntry.ruleE r]).2.1 = [o] ∧
      o.conditions = items) ∧
    (∀ (n : Nat) (d : CondDict), CondItem.refC n ∈ items → store[n]? = some d →
      ((validate_rules store [RuleEntry.ruleE r]).1)[n]? = some (normCondDict d)) ∧
    (∀ n : Nat, CondItem.refC n ∉ items →
      ((validate_rules store [RuleEntry.ruleE r]).1)[n]? = store[n]?) ∧
    (∀ d : CondDict,
      dictGet (normCondDict d) "op" = some ((dictGet d "op").getD (PyVal.str "==")) ∧
      dictGet (normCondDict d) "weight" =
        some (PyVal.num ((pyFloat ((dictGet d "weight").getD (PyVal.num 1))).getD 1))) := by
  have hsingle := validate_rules_single store r rid hid
  have hitems : condItems r.conds_raw = items := by rw [hconds]; rfl
  have hstore : (validate_rules store [RuleEntry.ruleE r]).1 =
      (processCondsAux rid 0 store items).1 := by
    rw [hsingle, ← hitems]
  refine ⟨?_, ?_, ?_, ?_⟩
  · rw [hsingle]
    exact ⟨_, rfl, hitems⟩
  · intro n d hmem hd
    rw [hstore]
    exact processCondsAux_get_of_mem rid items n 0 store d hmem hd
  · intro n hnmem
    rw [hstore]
    exact processCondsAux_get_of_not_mem rid items n 0 store hnmem
  · intro d
    constructor
    · show dictGet (normWeight (normOp d)) "op" = _
      have hop' : dictGet (normWeight (normOp d)) "op" = dictGet (normOp d) "op" := by
        unfold normWeight
        cases hw : pyFloat ((dictGet (normOp d) "weight").getD (PyVal.num 1)) <;>
          · dsimp only
            exact dictGet_dictSet_ne _ "weight" "op" _ (by decide)
      rw [hop']
      unfold normOp
      by_cases hop : dictHas d "op"
      · rw [if_pos hop]
        obtain ⟨v, hv⟩ := Option.isSome_iff_exists.mp (show (dictGet d "op").isSome = true from hop)
        rw [hv]
        rfl
      · rw [if_neg hop, dictGet_dictSet_self]
        have hnone : dictGet d "op" = Option.none :=
          Option.not_isSome_iff_eq_none.mp (by simpa [dictHas] using hop)
        rw [hnone]
        rfl
    · show dictGet (normWeight (normOp d)) "weight" = _
      have hw' : dictGet (normOp d) "weight" = dictGet d "weight" := by
        unfold normOp
        by_cases hop : dictHas d "op"
        · rw [if_pos hop]
        · rw [if_neg hop]
          exact dictGet_dictSet_ne _ "op" "weight" _ (by decide)
      unfold normWeight
      rw [hw']
      cases hw : pyFloat ((dictGet d "weight").getD (PyVal.num 1)) with
      | some w =>
        dsimp only
        rw [dictGet_dictSet_self]
        rfl
      | none =>
        dsimp only
        rw [dictGet_dictSet_self]
        rfl

/-- Concrete store and rule for the C10 witness: one condition dict that
lacks both `op` and `weight`. -/
def w10Dict : CondDict := [("type", PyVal.str "ping_latency")]

def w10Store : Store := [w10Dict]

def w10Rule : RuleIn :=
  { id := some 3, name := some (PyVal.str "w10"),
    confidence := some (PyVal.num (1/2)),
    conds_raw := CondsField.listF [CondItem.refC 0] }

/-- Witness for C10: after validation the stored condition dict has gained
`op = '=='` and `weight = 1.0` — the input store object was mutated. -/
theorem validate_rules_shallow_mutation_wit :
    ((validate_rules w10Store [RuleEntry.ruleE w10Rule]).1)[0]? =
      some (normCondDict w10Dict) ∧
    (validate_rules w10Store [RuleEntry.ruleE w10Rule]).1 ≠ w10Store := by
  constructor
  · exact (validate_rules_shallow_mutation w10Store w10Rule 3 [CondItem.refC 0]
      rfl rfl).2.1 0 w10Dict (by decide) (by decide)
  · decide

/-- Concrete input refuting C7 as stated: a rule with numeric confidence -1. -/
def c7Rule : RuleIn :=
  { id := some 1, name := some (PyVal.str "c7"),
    confidence := some (PyVal.num (-1)), conds_raw := CondsField.listF [] }

/-- Counterexample to C7 as stated: a negative numeric confidence (-1) is not
normalized to 0.0 — `_normalize_confidence_raw` returns `None` for it, so
`validate_rules` records an invalid-confidence issue and defaults to 0.5. -/
theorem validate_confidence_cex :
    (validate_rules [] [RuleEntry.ruleE c7Rule]).2.1.map
        (fun o => o.confidence) = [1/2] ∧
    Issue.invalidConfidence 1 ∈ (validate_rules [] [RuleEntry.ruleE c7Rule]).2.2 ∧
    (1/2 : Rat) ≠ 0 := by decide

theorem invalidConf_not_mem_processCond (rid rid' : Int) (j : Nat) (d : CondDict) :
    Issue.invalidConfidence rid ∉ (processCond rid' j d).2 := by
  unfold processCond
  intro hmem
  dsimp only at hmem
  rcases List.mem_append.mp hmem with h | h
  · rcases List.mem_append.mp h with h' | h'
    · by_cases ht : dictHas d "type"
      · rw [if_pos ht] at h'
        simp at h'
      · rw [if_neg ht] at h'
        simp at h'
    · by_cases hop2 : dictHas d "op"
      · rw [if_pos hop2] at h'
        simp at h'
      · rw [if_neg hop2] at h'
        simp at h'
  · revert h
    cases hw : pyFloat ((dictGet (normOp d) "weight").getD (PyVal.num 1)) <;>
      · intro h
        simp at h

theorem invalidConf_not_mem_processConds (rid rid' : Int) (items : List CondItem) :
    ∀ (j : Nat) (store : Store),
      Issue.invalidConfidence rid ∉ (processCondsAux rid' j store items).2 := by
  induction items with
  | nil =>
    intro j store
    simp [processCondsAux]
  | cons it rest ih =>
    intro j store
    cases it with
    | notDictC =>
      intro hmem
      rcases List.mem_cons.mp hmem with h | h
      · exact absurd h (by simp)
      · exact ih (j+1) store h
    | refC n =>
      unfold processCondsAux
      cases hm : store[n]? with
      | none => exact ih (j+1) store
      | some d =>
        dsimp only
        intro hmem
        rcases List.mem_append.mp hmem with h | h
        · exact invalidConf_not_mem_processCond rid rid' j d h
        · exact ih (j+1) _ h

theorem normalize_raw_some (cv : PyVal) (c : Rat) (h : pyFloat cv = some c) :
    normalize_confidence_raw cv =
      (if 0 ≤ c ∧ c ≤ 1 then some c
       else if 1 < c ∧ c ≤ 100 then some (c / 100)
       else if 100 < c then some 1 else Option.none) := by
  unfold normalize_confidence_raw
  rw [h]

theorem invalidConf_mem_single_issues (store : Store) (r : RuleIn) (rid : Int)
    (hid : r.id = some rid) :
    (Issue.invalidConfidence rid ∈ (validate_rules store [RuleEntry.ruleE r]).2.2 ↔
      normalize_confidence_raw (r.confidence.getD (PyVal.num (1/2))) = Option.none) := by
  rw [validate_rules_single store r rid hid]
  constructor
  · intro hmem
    rcases List.mem_append.mp hmem with h | h
    · rcases List.mem_append.mp h with h' | h'
      · rcases List.mem_append.mp h' with h2 | h2
        · by_cases hn : nameFalsy r.name
          · rw [if_pos hn] at h2
            simp at h2
          · rw [if_neg hn] at h2
            simp at h2
        · unfold normConfPair at h2
          revert h2
          cases hc : normalize_confidence_raw (r.confidence.getD (PyVal.num (1/2))) with
          | some v =>
            intro h2
            simp at h2
          | none =>
            intro _
            rfl
      · revert h'
        cases r.conds_raw <;>
          · intro h'
            simp [condFieldIssues] at h'
    · exact absurd h (invalidConf_not_mem_processConds rid rid _ 0 store)
  · intro hnone
    apply List.mem_append.mpr
    left
    apply List.mem_append.mpr
    left
    apply List.mem_append.mpr
    right
    unfold normConfPair
    rw [hnone]
    simp

/-- C7 (amended): `validate_rules` normalizes a kept rule's numeric
confidence c as: 0 ≤ c ≤ 1 unchanged (so c = 0 stays 0.0, without an
invalid-confidence issue); 1 < c ≤ 100 becomes c/100; c > 100 becomes 1.0;
but a negative numeric confidence is recorded as an invalid-confidence issue
and defaulted to 0.5, exactly like non-numeric input. -/
theorem validate_rules_confidence (store : Store) (r : RuleIn) (rid : Int)
    (hid : r.id = some rid) :
    ∃ o : RuleOut, (validate_rules store [RuleEntry.ruleE r]).2.1 = [o] ∧
      (∀ c : Rat, pyFloat (r.confidence.getD (PyVal.num (1/2))) = some c →
        o.confidence = (if 0 ≤ c ∧ c ≤ 1 then c
          else if 1 < c ∧ c ≤ 100 then c / 100
          else if 100 < c then 1 else 1/2) ∧
        (Issue.invalidConfidence rid ∈ (validate_rules store [RuleEntry.ruleE r]).2.2 ↔
          c < 0)) ∧
      (pyFloat (r.confidence.getD (PyVal.num (1/2))) = Option.none →
        o.confidence = 1/2 ∧
        Issue.invalidConfidence rid ∈ (validate_rules store [RuleEntry.ruleE r]).2.2) := by
  have hmemiff := invalidConf_mem_single_issues store r rid hid
  refine ⟨_, by rw [validate_rules_single store r rid hid], ?_, ?_⟩
  · intro c hc
    constructor
    · show (normConfPair rid (r.confidence.getD (PyVal.num (1/2)))).1 = _
      unfold normConfPair
      rw [normalize_raw_some _ c hc]
      by_cases h1 : 0 ≤ c ∧ c ≤ 1
      · simp [h1]
      · by_cases h2 : 1 < c ∧ c ≤ 100
        · simp [h1, h2]
        · by_cases h3 : 100 < c
          · simp [h1, h2, h3]
          · simp [h1, h2, h3]
    · rw [hmemiff, normalize_raw_some _ c hc]
      by_cases h1 : 0 ≤ c ∧ c ≤ 1
      · have hnn : ¬ c < 0 := not_lt.mpr h1.1
        simp [h1, hnn]
      · by_cases h2 : 1 < c ∧ c ≤ 100
        · have hnn : ¬ c < 0 := by linarith [h2.1]
          simp [h1, h2, hnn]
        · by_cases h3 : 100 < c
          · have hnn : ¬ c < 0 := by linarith
            simp [h1, h2, h3, hnn]
          · have hcneg : c < 0 := by
              push_neg at h1 h2 h3
              rcases lt_or_le c 0 with h | h
              · exact h
              · exact absurd (h3.trans_lt (h2 (h1 h))) (lt_irrefl _)
            simp [h1, h2, h3, hcneg]
  · intro hnone
    constructor
    · show (normConfPair rid (r.confidence.getD (PyVal.num (1/2)))).1 = _
      unfold normConfPair normalize_confidence_raw
      rw [hnone]
    · rw [hmemiff]
      unfold normalize_confidence_raw
      rw [hnone]

/-- Concrete rule for the C7 witness: percentage confidence 50. -/
def w7Rule : RuleIn :=
  { id := some 9, name := some (PyVal.str "w7"),
    confidence := some (PyVal.num 50), conds_raw := CondsField.listF [] }

/-- Witness for C7 (amended): confidence 50 is scaled to 0.5 with no
invalid-confidence issue. -/
theorem validate_rules_confidence_wit :
    (validate_rules [] [RuleEntry.ruleE w7Rule]).2.1.map
        (fun o => o.confidence) = [1/2] ∧
    ¬ Issue.invalidConfidence 9 ∈ (validate_rules [] [RuleEntry.ruleE w7Rule]).2.2 := by
  obtain ⟨o, ho, hnum, _⟩ := validate_rules_confidence [] w7Rule 9 rfl
  obtain ⟨hconf, hiff⟩ := hnum 50 (by rfl)
  constructor
  · rw [ho, List.map_cons, List.map_nil, hconf]
    norm_num
  · intro hmem
    exact absurd (hiff.mp hmem) (by norm_num)
